import Mathlib

/-!
# Route planner client (`static/js/app.js`)

A shallow embedding of the event handlers of `static/js/app.js` and proofs about them.

Modelling conventions.

* The module-level variables of the script, the form controls it reads and writes, the
  Leaflet objects it creates, the browser's interval timers and the log of issued `fetch`
  calls are the fields of one record, `State`.  Every handler is a function on `State`.
* Browser built-ins whose exact results are not fixed by the script (`parseFloat`, `parseInt`,
  `Number.prototype.toFixed`) are fields of `Builtins`; every theorem holds for every choice
  of them.  `decimalBuiltins` is a concrete choice used for worked examples.
* A JavaScript number is a `JSNum`: `NaN`, an infinity or a finite value, the finite values
  being idealised as rationals (`-0` is identified with `0`; both are falsy).
* JSON bodies of server replies are typed by the schema the script consumes (`RouteData`);
  an absent (or `null`) member is `none`.
* Every Leaflet layer the script creates is referenced by exactly one of its variables, so a
  layer is stored in the variable that references it.  The one layer that can be taken off
  the map while its variable still references it is the route polyline, which carries the
  flag `onMap`.
* The id of a safety point is a value of `Date.now()`; the attribute `data-id`, which holds
  its decimal text, and the `id` of an entry of `safetyMarkers` are modelled by that number,
  and the comparison `==` on them by equality.
* A user action or the arrival of a reply is an event.  `step` and `run` execute the events
  of route submission and polling, `formStep` and `formRun` those of the safety-point form,
  the selection buttons and the map.
* `fetch(...).then(...).catch(...)` is split in two: the handler that issues the request
  (`calculateRoute`, `checkRouteResult`) and the continuation that runs when the reply
  arrives (`calculateRouteReply`, `checkRouteResultReply`).
-/

namespace RouteApp

/-! ## JavaScript values -/

/-- A JavaScript number: `NaN`, `±Infinity`, or a finite value. -/
inductive JSNum where
  | nan
  | inf (negative : Bool)
  | fin (q : ℚ)
  deriving DecidableEq, Repr

namespace JSNum

/-- The global `isNaN` on a number. -/
def isNaN : JSNum → Bool
  | nan => true
  | _ => false

/-- Truthiness of a number: `NaN` and `0` are falsy. -/
def truthy : JSNum → Bool
  | nan => false
  | inf _ => true
  | fin q => decide (q ≠ 0)

/-- The expression `a || d` on numbers. -/
def orElse (a d : JSNum) : JSNum :=
  if a.truthy then a else d

/-- The expression `a / d` for a positive finite constant `d`. -/
def divBy (a : JSNum) (d : ℚ) : JSNum :=
  match a with
  | nan => nan
  | inf n => inf n
  | fin q => fin (q / d)

end JSNum

/-- Truthiness of an optional string member: absent and `""` are falsy. -/
def strTruthy : Option String → Bool
  | some t => decide (t ≠ "")
  | none => false

/-- The expression `x || dflt` where `x` is an optional string member, as text. -/
def textOr (x : Option String) (dflt : String) : String :=
  match x with
  | some t => if t ≠ "" then t else dflt
  | none => dflt

/-- Browser built-ins used by the script. -/
structure Builtins where
  /-- The global `parseFloat` applied to a form value. -/
  parseFloat : String → JSNum
  /-- The global `parseInt` applied to a form value. -/
  parseInt : String → JSNum
  /-- The method `Number.prototype.toFixed` on a finite number. -/
  toFixed : ℚ → Nat → String

/-- The expression `x?.toFixed(digits) || dflt` on an optional numeric member. -/
def toFixedOr (E : Builtins) (x : Option ℚ) (digits : Nat) (dflt : String) : String :=
  match x with
  | none => dflt
  | some v => if E.toFixed v digits ≠ "" then E.toFixed v digits else dflt

/-! ## Leaflet objects -/

/-- A geographical point. -/
structure LatLng where
  lat : ℚ
  lng : ℚ
  deriving DecidableEq, Repr

/-- Bounding box of a layer, as returned by `getBounds`. -/
structure LatLngBounds where
  south : ℚ
  west : ℚ
  north : ℚ
  east : ℚ
  deriving DecidableEq, Repr

/-- The `divIcon` of a marker created by the script. -/
inductive Icon where
  | startIcon
  | endIcon
  | safetyIcon (level : JSNum) (color : String)
  deriving DecidableEq, Repr

/-- A marker (`L.marker`) that is on the map. -/
structure Marker where
  latlng : LatLng
  icon : Icon
  deriving DecidableEq, Repr

/-- A circle (`L.circle`) that is on the map; `level` is the level named in its class. -/
structure Circle where
  latlng : LatLng
  radius : JSNum
  color : String
  fillColor : String
  level : Option JSNum
  deriving DecidableEq, Repr

/-- The route polyline (`L.polyline`). -/
structure Polyline where
  latLngs : List LatLng
  onMap : Bool
  deriving DecidableEq, Repr

/-- An entry of the array `safetyMarkers`. -/
structure SafetyMarker where
  id : Nat
  marker : Marker
  circle : Circle
  radius : JSNum
  safetyIndex : JSNum
  deriving DecidableEq, Repr

/-- The viewport of the map: the last `setView` or `fitBounds`. -/
inductive MapView where
  | setView (lat lng : ℚ) (zoom : Nat)
  | fitBounds (bounds : LatLngBounds)
  deriving DecidableEq, Repr

/-! ## Form, requests and replies -/

/-- A `.safety-point` block of the form: its `data-id` and the values of its controls. -/
structure SafetyPointEl where
  id : Nat
  safetyLat : String
  safetyLon : String
  safetyRadius : String
  safetyIndex : String
  safetyWeight : String
  deriving DecidableEq, Repr

/-- An entry of `safety_points` in the request body. -/
structure SafetyPoint where
  lat : JSNum
  lon : JSNum
  radius : JSNum
  safety_index : JSNum
  weight : JSNum
  deriving DecidableEq, Repr

/-- The object `requestData` posted to `/calculate-route`. -/
structure RequestData where
  start_lat : JSNum
  start_lon : JSNum
  end_lat : JSNum
  end_lon : JSNum
  optimization : String
  heuristic : String
  distance_weight : JSNum
  time_weight : JSNum
  safety_weight : JSNum
  safety_points : List SafetyPoint
  deriving DecidableEq, Repr

/-- A call of `fetch`. -/
inductive Request where
  | calculateRoute (body : RequestData)
  | routeResult (taskId : String)
  deriving DecidableEq, Repr

/-- The member `summary` of a reply. -/
structure Summary where
  total_distance_km : Option ℚ
  total_time_minutes : Option ℚ
  safety_level : Option String
  deriving DecidableEq, Repr

/-- An element of the member `segments` of a reply. -/
structure Segment where
  distance : Option ℚ
  time : Option ℚ
  speed : Option ℚ
  safety_level : Option String
  deriving DecidableEq, Repr

/-- The member `metadata` of a reply. -/
structure Metadata where
  optimization : Option String
  deriving DecidableEq, Repr

/-- The JSON body of a reply of `/calculate-route` or `/route-result/{task_id}`. -/
structure RouteData where
  status : Option String
  task_id : Option String
  error : Option String
  summary : Option Summary
  path : Option (List (ℚ × ℚ))
  segments : Option (List Segment)
  metadata : Option Metadata
  deriving DecidableEq, Repr

/-- How a `fetch` settles: the promise rejects with an error carrying `message`, or a
response with an HTTP status arrives, whose `json()` yields a body or throws. -/
inductive FetchOutcome where
  | rejected (message : String)
  | response (status : Nat) (json : Except String RouteData)

/-- The property `response.ok`. -/
def responseOk (status : Nat) : Bool :=
  decide (200 ≤ status) && decide (status ≤ 299)

/-- A block `.segment-item` of the list `#segments-list`. -/
structure SegmentItem where
  number : Nat
  distance : String
  time : String
  speed : String
  safety : String
  deriving DecidableEq, Repr

/-- The values `selectionMode` takes besides `null`: `'start'`, `'end'` (here `finish`) and
`'safety'`. -/
inductive Mode where
  | start
  | finish
  | safety
  deriving DecidableEq, Repr

/-- The object stored in `currentSafetyPointId`. -/
structure CurrentSafetyPoint where
  id : Nat
  safetyIndex : JSNum
  deriving DecidableEq, Repr

/-! ## State -/

/-- The script's variables, the page, the map, the timers and the network log. -/
structure State where
  routeLayer : Option Polyline
  startMarker : Option Marker
  endMarker : Option Marker
  safetyMarkers : List SafetyMarker
  currentTaskId : Option String
  checkResultInterval : Option Nat
  selectionMode : Option Mode
  currentSafetyPointId : Option CurrentSafetyPoint
  startLat : String
  startLon : String
  endLat : String
  endLon : String
  optimization : String
  heuristic : String
  distanceWeight : String
  timeWeight : String
  safetyWeight : String
  safetyPoints : List SafetyPointEl
  resultsHidden : Bool
  loadingHidden : Bool
  errorHidden : Bool
  errorText : String
  totalDistance : String
  totalTime : String
  safetyLevel : String
  optimizationType : String
  segmentsList : List SegmentItem
  indicatorText : String
  indicatorShown : Bool
  view : MapView
  activeTimers : List Nat
  timerCounter : Nat
  sent : List Request
  pendingCalculate : Nat
  pendingPoll : Nat
  deriving DecidableEq, Repr

/-- Outcome of a block that may throw: the state when it finished or when it threw. -/
inductive Completion where
  | normal (s : State)
  | abrupt (s : State)
  deriving DecidableEq, Repr

/-! ## Browser primitives -/

/-- The call `setInterval(...)`: a fresh positive handle becomes active. -/
def setInterval (s : State) : Nat × State :=
  (s.timerCounter + 1,
    { s with timerCounter := s.timerCounter + 1
             activeTimers := s.activeTimers ++ [s.timerCounter + 1] })

/-- The call `clearInterval(h)`: the timer with handle `h`, if active, is cancelled. -/
def clearInterval (h : Option Nat) (s : State) : State :=
  match h with
  | none => s
  | some id => { s with activeTimers := s.activeTimers.filter (fun t => t != id) }

/-- Truthiness of a timer handle variable. -/
def timerTruthy : Option Nat → Bool
  | some id => id != 0
  | none => false

/-- The call `fetch(...)`: the request is issued and its reply is awaited. -/
def fetch (r : Request) (s : State) : State :=
  match r with
  | Request.calculateRoute _ =>
    { s with sent := s.sent ++ [r], pendingCalculate := s.pendingCalculate + 1 }
  | Request.routeResult _ =>
    { s with sent := s.sent ++ [r], pendingPoll := s.pendingPoll + 1 }

/-! ## Handlers -/

/-- Function `showError` (lines 788-792). -/
def showError (message : String) (s : State) : State :=
  { s with loadingHidden := true, errorHidden := false, errorText := message }

/-- The callback of `safetyElements.forEach` in `calculateRoute` (lines 333-349). -/
def collectSafetyPoint (E : Builtins) (safetyPoints : List SafetyPoint) (el : SafetyPointEl) :
    List SafetyPoint :=
  let lat := E.parseFloat el.safetyLat
  let lon := E.parseFloat el.safetyLon
  let radius := E.parseFloat el.safetyRadius
  let safetyIndex := E.parseInt el.safetyIndex
  let weight := (E.parseFloat el.safetyWeight).orElse (JSNum.fin 1)
  if !lat.isNaN && !lon.isNaN then
    safetyPoints ++
      [{ lat := lat
         lon := lon
         radius := if radius.isNaN then JSNum.fin 200 else radius
         safety_index := if safetyIndex.isNaN then JSNum.fin 1 else safetyIndex
         weight := if weight.isNaN then JSNum.fin 1 else weight }]
  else safetyPoints

/-- Function `calculateRoute` up to and including the call of `fetch` (lines 317-387). -/
def calculateRoute (E : Builtins) (s : State) : State :=
  let startLat := E.parseFloat s.startLat
  let startLon := E.parseFloat s.startLon
  let endLat := E.parseFloat s.endLat
  let endLon := E.parseFloat s.endLon
  if startLat.isNaN || startLon.isNaN || endLat.isNaN || endLon.isNaN then
    showError "Por favor selecciona puntos de inicio y fin en el mapa" s
  else
    let safetyPoints := s.safetyPoints.foldl (collectSafetyPoint E) []
    let requestData : RequestData :=
      { start_lat := startLat
        start_lon := startLon
        end_lat := endLat
        end_lon := endLon
        optimization := s.optimization
        heuristic := s.heuristic
        distance_weight := (E.parseFloat s.distanceWeight).divBy 100
        time_weight := (E.parseFloat s.timeWeight).divBy 100
        safety_weight := (E.parseFloat s.safetyWeight).divBy 100
        safety_points := safetyPoints }
    let s1 := { s with resultsHidden := true, errorHidden := true, loadingHidden := false }
    let s2 :=
      match s1.routeLayer with
      | some layer => { s1 with routeLayer := some { layer with onMap := false } }
      | none => s1
    let s3 := if timerTruthy s2.checkResultInterval then clearInterval s2.checkResultInterval s2 else s2
    fetch (Request.calculateRoute requestData) s3

/-- Function `updateStartMarker` (lines 235-247). -/
def updateStartMarker (latlng : LatLng) (s : State) : State :=
  match s.startMarker with
  | some m => { s with startMarker := some { m with latlng := latlng } }
  | none => { s with startMarker := some { latlng := latlng, icon := Icon.startIcon } }

/-- Function `updateEndMarker` (lines 249-261). -/
def updateEndMarker (latlng : LatLng) (s : State) : State :=
  match s.endMarker with
  | some m => { s with endMarker := some { m with latlng := latlng } }
  | none => { s with endMarker := some { latlng := latlng, icon := Icon.endIcon } }

/-- One step of Leaflet's `LatLngBounds.extend`. -/
def extendBounds (b : LatLngBounds) (p : LatLng) : LatLngBounds :=
  { south := min b.south p.lat
    west := min b.west p.lng
    north := max b.north p.lat
    east := max b.east p.lng }

/-- Leaflet's `getBounds` of a polyline; a polyline without points has no valid bounds. -/
def getBounds : List LatLng → Option LatLngBounds
  | [] => none
  | p :: ps => some (ps.foldl extendBounds { south := p.lat, west := p.lng, north := p.lat, east := p.lng })

/-- Function `drawRouteOnMap` (lines 636-655).  With an empty path `fitBounds` throws
(Leaflet rejects invalid bounds), as would the access `path[0][0]`. -/
def drawRouteOnMap (path : List (ℚ × ℚ)) (s : State) : Completion :=
  let s1 :=
    match s.routeLayer with
    | some layer => { s with routeLayer := some { layer with onMap := false } }
    | none => s
  let latLngs := path.map (fun point => LatLng.mk point.1 point.2)
  let s2 := { s1 with routeLayer := some { latLngs := latLngs, onMap := true } }
  match getBounds latLngs with
  | none => Completion.abrupt s2
  | some bounds =>
    let s3 := { s2 with view := MapView.fitBounds bounds }
    match path[0]? with
    | none => Completion.abrupt s3
    | some first =>
      let s4 := updateStartMarker (LatLng.mk first.1 first.2) s3
      match path[path.length - 1]? with
      | none => Completion.abrupt s4
      | some last => Completion.normal (updateEndMarker (LatLng.mk last.1 last.2) s4)

/-- The block built for one segment by the callback of `result.segments.forEach`. -/
def segmentItem (E : Builtins) (segment : Segment) (index : Nat) : SegmentItem :=
  { number := index + 1
    distance := toFixedOr E segment.distance 0 "0" ++ " m"
    time := toFixedOr E segment.time 1 "0.0" ++ " s"
    speed := toFixedOr E segment.speed 0 "0" ++ " km/h"
    safety := textOr segment.safety_level "Desconocido" }

/-- The label shown in `#optimization-type`. -/
def optimizationLabel (optimizationType : String) : String :=
  if optimizationType = "balanced" then "Balanceada"
  else if optimizationType = "shortest" then "Más corta"
  else if optimizationType = "fastest" then "Más rápida"
  else "Más segura"

/-- The `try` block of the second `displayRouteResult` (lines 576-628), entered when
`summary`, `path` and `segments` are all present. -/
def renderRouteResult (E : Builtins) (result : RouteData) (summary : Summary)
    (path : List (ℚ × ℚ)) (segments : List Segment) (s : State) : Completion :=
  let s1 :=
    { s with
      totalDistance := toFixedOr E summary.total_distance_km 2 "0.00" ++ " km"
      totalTime := toFixedOr E summary.total_time_minutes 1 "0.0" ++ " min"
      safetyLevel := textOr summary.safety_level "Desconocido" }
  let optimizationType := textOr (result.metadata.bind (fun m => m.optimization)) "balanced"
  let s2 := { s1 with optimizationType := optimizationLabel optimizationType }
  let s3 := { s2 with segmentsList := [] }
  let s4 :=
    segments.enum.foldl
      (fun st p => { st with segmentsList := st.segmentsList ++ [segmentItem E p.2 p.1] }) s3
  let drawn := if path.length > 0 then drawRouteOnMap path s4 else Completion.normal s4
  match drawn with
  | Completion.normal s5 => Completion.normal { s5 with resultsHidden := false }
  | Completion.abrupt s5 => Completion.abrupt s5

/-- The second definition of `displayRouteResult` (lines 557-633), the one in force (a later
function declaration replaces an earlier one of the same name).  A decoded body is an
object, so the test `!result` is false and `result?.error` is `result.error`. -/
def displayRouteResult (E : Builtins) (result : RouteData) (s : State) : State :=
  let s1 := { s with loadingHidden := true }
  if strTruthy result.error then
    showError (textOr result.error "Respuesta inválida del servidor") s1
  else
    match result.summary, result.path, result.segments with
    | some summary, some path, some segments =>
      match renderRouteResult E result summary path segments s1 with
      | Completion.normal s2 => s2
      | Completion.abrupt s2 => showError "Error al procesar los resultados de la ruta" s2
    | _, _, _ =>
      if result.status = some "processing" then s1
      else showError "Datos de ruta incompletos" s1

/-- The first callback of the `fetch` chain in `calculateRoute` (lines 388-393): the
decoded body, or the message of the error that reaches `.catch`. -/
def calculateRouteResponse (o : FetchOutcome) : Except String RouteData :=
  match o with
  | FetchOutcome.rejected message => Except.error message
  | FetchOutcome.response status json =>
    if !responseOk status then Except.error "Error en la respuesta del servidor"
    else json

/-- The continuation of `fetch('/calculate-route', ...)` in `calculateRoute` (lines 388-410). -/
def calculateRouteReply (E : Builtins) (o : FetchOutcome) (s : State) : State :=
  match calculateRouteResponse o with
  | Except.ok data =>
    if data.status = some "processing" then
      let s1 := { s with currentTaskId := data.task_id }
      let (handle, s2) := setInterval s1
      { s2 with checkResultInterval := some handle }
    else if data.status = some "completed" then
      displayRouteResult E data { s with currentTaskId := data.task_id }
    else
      showError (textOr data.error "Error desconocido al calcular la ruta") s
  | Except.error message => showError ("Error al conectar con el servidor: " ++ message) s

/-- The object literal with only `status: 'processing'` that stands in for a 404. -/
def processingData : RouteData :=
  { status := some "processing", task_id := none, error := none, summary := none,
    path := none, segments := none, metadata := none }

/-- The second definition of `checkRouteResult`, the one in force, up to the call of `fetch`
(lines 526-529). -/
def checkRouteResult (taskId : Option String) (s : State) : State :=
  match taskId with
  | some t => if t ≠ "" then fetch (Request.routeResult t) s else s
  | none => s

/-- The first callback of the `fetch` chain in the second `checkRouteResult`
(lines 530-539). -/
def checkRouteResultResponse (o : FetchOutcome) : Except String RouteData :=
  match o with
  | FetchOutcome.rejected message => Except.error message
  | FetchOutcome.response status json =>
    if !responseOk status then
      if status = 404 then Except.ok processingData
      else Except.error "Error en la respuesta del servidor"
    else json

/-- The continuation of the `fetch` in the second `checkRouteResult` (lines 530-554). -/
def checkRouteResultReply (E : Builtins) (o : FetchOutcome) (s : State) : State :=
  match checkRouteResultResponse o with
  | Except.ok data =>
    if data.status = some "completed" then
      displayRouteResult E data (clearInterval s.checkResultInterval s)
    else if strTruthy data.error then
      showError (textOr data.error "") (clearInterval s.checkResultInterval s)
    else s
  | Except.error _ =>
    showError "Error al verificar el estado de la ruta" (clearInterval s.checkResultInterval s)

/-- Function `addSafetyPoint` (lines 658-702); `now` is the value of `Date.now()`.  The
listeners it attaches are `removeSafetyPoint`, `setSelectionMode` and `safetyRadiusChange`. -/
def addSafetyPoint (now : Nat) (s : State) : State :=
  { s with
    safetyPoints := s.safetyPoints ++
      [{ id := now, safetyLat := "", safetyLon := "", safetyRadius := "200",
         safetyIndex := "1", safetyWeight := "1.0" }] }

/-- Function `resetCalculation` (lines 106-150); `now` is the value of `Date.now()`. -/
def resetCalculation (now : Nat) (s : State) : State :=
  let s1 := { s with resultsHidden := true }
  let s2 := match s1.routeLayer with
    | some _ => { s1 with routeLayer := none }
    | none => s1
  let s3 := match s2.startMarker with
    | some _ => { s2 with startMarker := none }
    | none => s2
  let s4 := match s3.endMarker with
    | some _ => { s3 with endMarker := none }
    | none => s3
  let s5 := { s4 with startLat := "", startLon := "", endLat := "", endLon := "" }
  let s6 := { s5 with safetyMarkers := [] }
  let s7 := { s6 with safetyPoints := [] }
  let s8 :=
    if timerTruthy s7.checkResultInterval then
      { clearInterval s7.checkResultInterval s7 with checkResultInterval := none }
    else s7
  addSafetyPoint now s8

/-- Function `removeSafetyPoint` (lines 753-767). -/
def removeSafetyPoint (id : Nat) (s : State) : State :=
  let s1 :=
    match s.safetyPoints.findIdx? (fun el => el.id == id) with
    | some i => { s with safetyPoints := s.safetyPoints.eraseIdx i }
    | none => s
  match s1.safetyMarkers.findIdx? (fun m => m.id == id) with
  | some markerIndex => { s1 with safetyMarkers := s1.safetyMarkers.eraseIdx markerIndex }
  | none => s1

/-- The colours `colors[safetyIndex] || colors[4]` of `updateSafetyMarker`. -/
def safetyColors (safetyIndex : JSNum) : String × String :=
  if safetyIndex = JSNum.fin 1 then ("#2ecc71", "#d5f5e3")
  else if safetyIndex = JSNum.fin 2 then ("#27ae60", "#a3e4d7")
  else if safetyIndex = JSNum.fin 3 then ("#f39c12", "#fdebd0")
  else if safetyIndex = JSNum.fin 4 then ("#e74c3c", "#fadbd8")
  else if safetyIndex = JSNum.fin 5 then ("#c0392b", "#f5b7b1")
  else ("#e74c3c", "#fadbd8")

/-- Function `updateSafetyMarker` (lines 194-232). -/
def updateSafetyMarker (id : Nat) (latlng : LatLng) (radius safetyIndex : JSNum) (s : State) :
    State :=
  let s1 :=
    match s.safetyMarkers.findIdx? (fun m => m.id == id) with
    | some existingIndex => { s with safetyMarkers := s.safetyMarkers.eraseIdx existingIndex }
    | none => s
  let colors := safetyColors safetyIndex
  let marker : Marker := { latlng := latlng, icon := Icon.safetyIcon safetyIndex colors.1 }
  let circle : Circle :=
    { latlng := latlng, radius := radius, color := colors.1, fillColor := colors.2,
      level := some safetyIndex }
  { s1 with
    safetyMarkers := s1.safetyMarkers ++
      [{ id := id, marker := marker, circle := circle, radius := radius,
         safetyIndex := safetyIndex }] }

/-- Function `setSelectionMode` (lines 80-104); `safetyPointId` is `none` when the argument
is omitted or `null`. -/
def setSelectionMode (E : Builtins) (mode : Option Mode) (safetyPointId : Option Nat)
    (s : State) : State :=
  let s1 := { s with selectionMode := mode }
  let s2 :=
    match mode, safetyPointId with
    | some Mode.safety, some id =>
      match s1.safetyPoints.find? (fun (el : SafetyPointEl) => el.id == id) with
      | some pointEl =>
        { s1 with
          currentSafetyPointId :=
            some { id := id, safetyIndex := (E.parseInt pointEl.safetyIndex).orElse (JSNum.fin 1) } }
      | none => s1
    | _, _ => { s1 with currentSafetyPointId := none }
  match mode with
  | some Mode.start =>
    { s2 with indicatorText := "Seleccionando punto de inicio", indicatorShown := true }
  | some Mode.finish =>
    { s2 with indicatorText := "Seleccionando punto de fin", indicatorShown := true }
  | some Mode.safety =>
    { s2 with indicatorText := "Seleccionando ubicación de punto de seguridad",
              indicatorShown := true }
  | none => { s2 with indicatorShown := false }

/-- Writes the latitude and longitude controls of the first block with the given id. -/
def setSafetyLatLon (id : Nat) (lat lng : String) : List SafetyPointEl → List SafetyPointEl
  | [] => []
  | el :: rest =>
    if el.id == id then { el with safetyLat := lat, safetyLon := lng } :: rest
    else el :: setSafetyLatLon id lat lng rest

/-- The listener of the map's `click` event (lines 161-191). -/
def mapClick (E : Builtins) (latlng : LatLng) (s : State) : State :=
  match s.selectionMode with
  | none => s
  | some mode =>
    let lat := E.toFixed latlng.lat 6
    let lng := E.toFixed latlng.lng 6
    let s1 :=
      match mode with
      | Mode.start => updateStartMarker latlng { s with startLat := lat, startLon := lng }
      | Mode.finish => updateEndMarker latlng { s with endLat := lat, endLon := lng }
      | Mode.safety =>
        match s.currentSafetyPointId with
        | none => s
        | some current =>
          match s.safetyPoints.find? (fun (el : SafetyPointEl) => el.id == current.id) with
          | none => s
          | some pointEl =>
            let radius := (E.parseFloat pointEl.safetyRadius).orElse (JSNum.fin 200)
            updateSafetyMarker current.id latlng radius current.safetyIndex
              { s with safetyPoints := setSafetyLatLon current.id lat lng s.safetyPoints }
    setSelectionMode E none none s1

/-- The listener of the button `#select-safety-point` (lines 62-68). -/
def selectSafetyPointClick (E : Builtins) (s : State) : State :=
  if s.safetyPoints.length = 0 then showError "Primero añade un punto de seguridad" s
  else setSelectionMode E (some Mode.safety) none s

/-- Replaces the circle of the first entry with the given id, as the `change` listener does
with the entry returned by `safetyMarkers.find`. -/
def replaceCircle (id : Nat) (radius : JSNum) : List SafetyMarker → List SafetyMarker
  | [] => []
  | m :: rest =>
    if m.id == id then
      { m with circle := { latlng := m.marker.latlng, radius := radius, color := "#e74c3c",
                           fillColor := "#f8d7da", level := none } } :: rest
    else m :: replaceCircle id radius rest

/-- The `change` listener of a block's `.safety-radius` control (lines 715-729); `value` is
the control's new value and `pointId` the id of the block. -/
def safetyRadiusChange (E : Builtins) (pointId : Nat) (value : String) (s : State) : State :=
  let radius := (E.parseFloat value).orElse (JSNum.fin 200)
  { s with safetyMarkers := replaceCircle pointId radius s.safetyMarkers }

/-! ## Events -/

/-- The state after the script's top-level code has run: `page` supplies the controls of
the document as loaded, `now` is the value of `Date.now()` in the closing `addSafetyPoint()`. -/
def initialState (page : State) (now : Nat) : State :=
  addSafetyPoint now
    { page with
      routeLayer := none, startMarker := none, endMarker := none, safetyMarkers := [],
      currentTaskId := none, checkResultInterval := none, selectionMode := none,
      currentSafetyPointId := none, view := MapView.setView (19954 / 1000) (-99533 / 1000) 14,
      activeTimers := [], timerCounter := 0, sent := [], pendingCalculate := 0,
      pendingPoll := 0 }

/-- Client events of route submission and polling. -/
inductive Event where
  | clickCalculate
  | calculateReply (o : FetchOutcome)
  | pollTick (timer : Nat)
  | pollReply (o : FetchOutcome)
  | clickNewCalculation (now : Nat)

/-- One event: `none` when the event cannot occur in the state (a reply without an
outstanding request, a tick of a timer that is not active). -/
def step (E : Builtins) (s : State) : Event → Option State
  | Event.clickCalculate => some (calculateRoute E s)
  | Event.calculateReply o =>
    if s.pendingCalculate = 0 then none
    else some (calculateRouteReply E o { s with pendingCalculate := s.pendingCalculate - 1 })
  | Event.pollTick timer =>
    if timer ∈ s.activeTimers then some (checkRouteResult s.currentTaskId s) else none
  | Event.pollReply o =>
    if s.pendingPoll = 0 then none
    else some (checkRouteResultReply E o { s with pendingPoll := s.pendingPoll - 1 })
  | Event.clickNewCalculation now => some (resetCalculation now s)

/-- A sequence of events, in order. -/
def run (E : Builtins) (s : State) : List Event → Option State
  | [] => some s
  | e :: es =>
    match step E s e with
    | some s1 => run E s1 es
    | none => none

/-! ## The shadowed first definitions -/

/-- The `try` block of the first `displayRouteResult` (lines 466-518), entered when
`summary`, `path` and `segments` are all present. -/
def renderRouteResultFirst (E : Builtins) (result : RouteData) (summary : Summary)
    (path : List (ℚ × ℚ)) (segments : List Segment) (s : State) : Completion :=
  let s1 :=
    { s with
      totalDistance := toFixedOr E summary.total_distance_km 2 "0.00" ++ " km"
      totalTime := toFixedOr E summary.total_time_minutes 1 "0.0" ++ " min"
      safetyLevel := textOr summary.safety_level "Desconocido" }
  let optimizationType := textOr (result.metadata.bind (fun m => m.optimization)) "balanced"
  let s2 := { s1 with optimizationType := optimizationLabel optimizationType }
  let s3 := { s2 with segmentsList := [] }
  let s4 :=
    segments.enum.foldl
      (fun st p => { st with segmentsList := st.segmentsList ++ [segmentItem E p.2 p.1] }) s3
  let drawn := if path.length > 0 then drawRouteOnMap path s4 else Completion.normal s4
  match drawn with
  | Completion.normal s5 => Completion.normal { s5 with resultsHidden := false }
  | Completion.abrupt s5 => Completion.abrupt s5

/-- The first definition of `displayRouteResult` (lines 447-523), replaced at run time by
the second. -/
def displayRouteResultFirst (E : Builtins) (result : RouteData) (s : State) : State :=
  let s1 := { s with loadingHidden := true }
  if strTruthy result.error then
    showError (textOr result.error "Respuesta inválida del servidor") s1
  else
    match result.summary, result.path, result.segments with
    | some summary, some path, some segments =>
      match renderRouteResultFirst E result summary path segments s1 with
      | Completion.normal s2 => s2
      | Completion.abrupt s2 => showError "Error al procesar los resultados de la ruta" s2
    | _, _, _ =>
      if result.status = some "processing" then s1
      else showError "Datos de ruta incompletos" s1

/-- The first definition of `checkRouteResult` up to the call of `fetch` (lines 415-418). -/
def checkRouteResultFirst (taskId : Option String) (s : State) : State :=
  match taskId with
  | some t => if t ≠ "" then fetch (Request.routeResult t) s else s
  | none => s

/-- The first callback of the `fetch` chain in the first `checkRouteResult`
(lines 419-428). -/
def checkRouteResultResponseFirst (o : FetchOutcome) : Except String RouteData :=
  match o with
  | FetchOutcome.rejected message => Except.error message
  | FetchOutcome.response status json =>
    if !responseOk status then
      if status = 404 then Except.ok processingData
      else Except.error "Error en la respuesta del servidor"
    else json

/-- The continuation of the `fetch` in the first `checkRouteResult` (lines 419-443), with
the first `displayRouteResult` as the function it calls. -/
def checkRouteResultReplyFirst (E : Builtins) (o : FetchOutcome) (s : State) : State :=
  match checkRouteResultResponseFirst o with
  | Except.ok data =>
    if data.status = some "completed" then
      displayRouteResultFirst E data (clearInterval s.checkResultInterval s)
    else if strTruthy data.error then
      showError (textOr data.error "") (clearInterval s.checkResultInterval s)
    else s
  | Except.error _ =>
    showError "Error al verificar el estado de la ruta" (clearInterval s.checkResultInterval s)

/-! ## Events of the safety-point form and of the selection modes -/

/-- Client events on the safety-point form, the selection buttons and the map.  Buttons and
controls of a block are addressed by the position `row` of the block in the form. -/
inductive FormEvent where
  | clickAddSafetyPoint (now : Nat)
  | clickSelectOnMap (row : Nat)
  | clickRemove (row : Nat)
  | changeRadius (row : Nat) (value : String)
  | editControls (row : Nat) (safetyLat safetyIndex safetyWeight : String)
  | clickSetStart
  | clickSetEnd
  | clickSelectSafetyPoint
  | clickMap (latlng : LatLng)
  | clickNewCalculation (now : Nat)

/-- One event of the form: `none` when the addressed block does not exist.  A `change` of a
radius control first stores the new value in the control, then runs the listener; editing
another control of a block runs no listener. -/
def formStep (E : Builtins) (s : State) : FormEvent → Option State
  | FormEvent.clickAddSafetyPoint now => some (addSafetyPoint now s)
  | FormEvent.clickSelectOnMap row =>
    match s.safetyPoints[row]? with
    | some el => some (setSelectionMode E (some Mode.safety) (some el.id) s)
    | none => none
  | FormEvent.clickRemove row =>
    match s.safetyPoints[row]? with
    | some el => some (removeSafetyPoint el.id s)
    | none => none
  | FormEvent.changeRadius row value =>
    match s.safetyPoints[row]? with
    | some el =>
      some (safetyRadiusChange E el.id value
        { s with safetyPoints := s.safetyPoints.set row { el with safetyRadius := value } })
    | none => none
  | FormEvent.editControls row safetyLat safetyIndex safetyWeight =>
    match s.safetyPoints[row]? with
    | some el =>
      some { s with
        safetyPoints := s.safetyPoints.set row
          { el with safetyLat := safetyLat, safetyIndex := safetyIndex,
                    safetyWeight := safetyWeight } }
    | none => none
  | FormEvent.clickSetStart => some (setSelectionMode E (some Mode.start) none s)
  | FormEvent.clickSetEnd => some (setSelectionMode E (some Mode.finish) none s)
  | FormEvent.clickSelectSafetyPoint => some (selectSafetyPointClick E s)
  | FormEvent.clickMap latlng => some (mapClick E latlng s)
  | FormEvent.clickNewCalculation now => some (resetCalculation now s)

/-- A sequence of form events, in order. -/
def formRun (E : Builtins) (s : State) : List FormEvent → Option State
  | [] => some s
  | e :: es =>
    match formStep E s e with
    | some s1 => formRun E s1 es
    | none => none

/-! ## A concrete choice of built-ins -/

/-- Value of a string of decimal digits. -/
def digitsValue (ds : List Char) : Nat :=
  ds.foldl (fun n c => 10 * n + (c.toNat - 48)) 0

/-- The built-in `parseFloat` on plain decimal literals: optional leading blanks, an optional
sign, digits with an optional fraction; what follows is ignored and a text with no digits
gives `NaN`.  Exponents, `Infinity` and other white space are outside this fragment. -/
def parseDecimal (text : String) : JSNum :=
  let cs := text.toList.dropWhile (fun c => c = ' ')
  let negative := cs.head? = some '-'
  let body := if cs.head? = some '-' ∨ cs.head? = some '+' then cs.tail else cs
  let whole := body.takeWhile Char.isDigit
  let rest := body.dropWhile Char.isDigit
  let fraction := if rest.head? = some '.' then rest.tail.takeWhile Char.isDigit else []
  if whole = [] ∧ fraction = [] then JSNum.nan
  else
    let v : ℚ := (digitsValue whole : ℚ) + (digitsValue fraction : ℚ) / (10 : ℚ) ^ fraction.length
    JSNum.fin (if negative then -v else v)

/-- The built-in `parseInt` on plain decimal literals: optional leading blanks, an optional
sign and digits; a text with no digits gives `NaN`. -/
def parseInteger (text : String) : JSNum :=
  let cs := text.toList.dropWhile (fun c => c = ' ')
  let negative := cs.head? = some '-'
  let body := if cs.head? = some '-' ∨ cs.head? = some '+' then cs.tail else cs
  let whole := body.takeWhile Char.isDigit
  if whole = [] then JSNum.nan
  else JSNum.fin (if negative then -(digitsValue whole : ℚ) else (digitsValue whole : ℚ))

/-- The method `toFixed` on an exact value: round half up on the magnitude. -/
def toFixedDecimal (q : ℚ) (digits : Nat) : String :=
  let n : Nat := (Int.floor (|q| * (10 : ℚ) ^ digits + 1 / 2)).toNat
  let whole := toString (n / 10 ^ digits)
  let frac := toString (n % 10 ^ digits)
  let padded := String.mk (List.replicate (digits - frac.length) '0') ++ frac
  (if q < 0 then "-" else "") ++ whole ++ (if digits = 0 then "" else "." ++ padded)

/-- Built-ins restricted to plain decimal literals. -/
def decimalBuiltins : Builtins :=
  { parseFloat := parseDecimal, parseInt := parseInteger, toFixed := toFixedDecimal }

/-! ## Vocabulary of the statements and worked examples -/

/-- All four start/end coordinate controls parse to numbers. -/
def validCoordinates (E : Builtins) (s : State) : Prop :=
  (E.parseFloat s.startLat).isNaN = false ∧ (E.parseFloat s.startLon).isNaN = false ∧
  (E.parseFloat s.endLat).isNaN = false ∧ (E.parseFloat s.endLon).isNaN = false

/-- The latitude and longitude controls of a block both parse to numbers. -/
def numericCoordinates (E : Builtins) (el : SafetyPointEl) : Bool :=
  !(E.parseFloat el.safetyLat).isNaN && !(E.parseFloat el.safetyLon).isNaN

/-- The object literal pushed for a block by `calculateRoute` (lines 341-347). -/
def pushedSafetyPoint (E : Builtins) (el : SafetyPointEl) : SafetyPoint :=
  { lat := E.parseFloat el.safetyLat
    lon := E.parseFloat el.safetyLon
    radius :=
      if (E.parseFloat el.safetyRadius).isNaN then JSNum.fin 200 else E.parseFloat el.safetyRadius
    safety_index :=
      if (E.parseInt el.safetyIndex).isNaN then JSNum.fin 1 else E.parseInt el.safetyIndex
    weight :=
      if ((E.parseFloat el.safetyWeight).orElse (JSNum.fin 1)).isNaN then JSNum.fin 1
      else (E.parseFloat el.safetyWeight).orElse (JSNum.fin 1) }

/-- The object `requestData` built by `calculateRoute` (lines 352-363). -/
def requestDataOf (E : Builtins) (s : State) : RequestData :=
  { start_lat := E.parseFloat s.startLat
    start_lon := E.parseFloat s.startLon
    end_lat := E.parseFloat s.endLat
    end_lon := E.parseFloat s.endLon
    optimization := s.optimization
    heuristic := s.heuristic
    distance_weight := (E.parseFloat s.distanceWeight).divBy 100
    time_weight := (E.parseFloat s.timeWeight).divBy 100
    safety_weight := (E.parseFloat s.safetyWeight).divBy 100
    safety_points := s.safetyPoints.foldl (collectSafetyPoint E) [] }

/-- A document whose controls are all empty and whose panels are hidden. -/
def blankPage : State :=
  { routeLayer := none, startMarker := none, endMarker := none, safetyMarkers := [],
    currentTaskId := none, checkResultInterval := none, selectionMode := none,
    currentSafetyPointId := none, startLat := "", startLon := "", endLat := "", endLon := "",
    optimization := "balanced", heuristic := "manhattan", distanceWeight := "33",
    timeWeight := "33", safetyWeight := "34", safetyPoints := [], resultsHidden := true,
    loadingHidden := true, errorHidden := true, errorText := "", totalDistance := "",
    totalTime := "", safetyLevel := "", optimizationType := "", segmentsList := [],
    indicatorText := "", indicatorShown := false, view := MapView.setView 0 0 0,
    activeTimers := [], timerCounter := 0, sent := [], pendingCalculate := 0, pendingPoll := 0 }

/-- The freshly loaded page after the user has filled in the start and end coordinates. -/
def pickedState : State :=
  { initialState blankPage 1000 with
    startLat := "19.0", startLon := "-99.0", endLat := "19.1", endLon := "-99.1" }

/-- The state `pickedState` with three safety-point blocks: one complete, one with numeric
coordinates only, one without coordinates. -/
def threePointsState : State :=
  { pickedState with
    safetyPoints :=
      [{ id := 1000, safetyLat := "19.05", safetyLon := "-99.05", safetyRadius := "350",
         safetyIndex := "4", safetyWeight := "0.5" },
       { id := 1001, safetyLat := "", safetyLon := "", safetyRadius := "200",
         safetyIndex := "1", safetyWeight := "1.0" },
       { id := 1002, safetyLat := "19.07", safetyLon := "-99.02", safetyRadius := "",
         safetyIndex := "", safetyWeight := "" }] }

/-- A reply body with status `processing` and the given task id. -/
def processingReply (taskId : String) : FetchOutcome :=
  FetchOutcome.response 200 (Except.ok { processingData with task_id := some taskId })

/-- A reply body with status `completed` carrying a two-point route. -/
def completedReply (taskId : String) : FetchOutcome :=
  FetchOutcome.response 200
    (Except.ok
      { status := some "completed", task_id := some taskId, error := none,
        summary := some { total_distance_km := some (3 / 2), total_time_minutes := some 4,
                          safety_level := some "Seguro" },
        path := some [(19, -99), (191 / 10, -991 / 10)],
        segments := some [{ distance := some 1500, time := some 240, speed := some 22,
                            safety_level := some "Seguro" }],
        metadata := some { optimization := some "balanced" } })

/-- Two submissions, then the two replies, both `processing`. -/
def overlappingCalculations : List Event :=
  [Event.clickCalculate, Event.clickCalculate,
   Event.calculateReply (processingReply "a"), Event.calculateReply (processingReply "b")]

/-- The state `threePointsState` after the first and the third block were placed on the map. -/
def markedState : State :=
  updateSafetyMarker 1002 (LatLng.mk (1907 / 100) (-9902 / 100)) (JSNum.fin 200) (JSNum.fin 1)
    (updateSafetyMarker 1000 (LatLng.mk (1905 / 100) (-9905 / 100)) (JSNum.fin 350) (JSNum.fin 4)
      threePointsState)

/-- The state `pickedState` after one submission and its reply `processing`: one timer is
active. -/
def pollingState : State :=
  (run decimalBuiltins pickedState
    [Event.clickCalculate, Event.calculateReply (processingReply "a")]).getD pickedState

/-- The state in which a block ended, normally or by a throw. -/
def Completion.state : Completion → State
  | Completion.normal s => s
  | Completion.abrupt s => s

/-- The part of the state that concerns polling: the active timers, the handle variable, the
handle counter and the numbers of outstanding requests. -/
def timers (s : State) : List Nat × Option Nat × Nat × Nat × Nat :=
  (s.activeTimers, s.checkResultInterval, s.timerCounter, s.pendingCalculate, s.pendingPoll)

/-- At most one `/calculate-route` request is outstanding, no timer is active while one is,
and an active timer is the only one and is the one held in `checkResultInterval`. -/
def SingleTimer (s : State) : Prop :=
  s.pendingCalculate ≤ 1 ∧
  (s.pendingCalculate = 1 → s.activeTimers = []) ∧
  (s.activeTimers = [] ∨
    ∃ t, t ≠ 0 ∧ s.activeTimers = [t] ∧ s.checkResultInterval = some t)

/-- The events of `step`, with a click on "calculate" possible only when no
`/calculate-route` request is outstanding. -/
def stepSerial (E : Builtins) (s : State) (e : Event) : Option State :=
  match e with
  | Event.clickCalculate => if s.pendingCalculate = 0 then step E s e else none
  | _ => step E s e

/-- A sequence of events of `stepSerial`, in order. -/
def runSerial (E : Builtins) (s : State) : List Event → Option State
  | [] => some s
  | e :: es =>
    match stepSerial E s e with
    | some s1 => runSerial E s1 es
    | none => none

/-- A poll that fails: the request is rejected, the status is neither OK nor 404, or the
status is OK and decoding the body throws. -/
def pollFails : FetchOutcome → Prop
  | FetchOutcome.rejected _ => True
  | FetchOutcome.response status (Except.error _) => responseOk status = true ∨ status ≠ 404
  | FetchOutcome.response status (Except.ok _) => responseOk status = false ∧ status ≠ 404

/-- Every entry of `safetyMarkers` has the id of a block of the form, and no two entries
have the same id. -/
def MarkersMatchForm (s : State) : Prop :=
  (s.safetyMarkers.map (fun m => m.id)).Nodup ∧
  ∀ m ∈ s.safetyMarkers, m.id ∈ s.safetyPoints.map (fun el => el.id)

/-- The state `pickedState` with one safety-point block whose weight control holds `0`. -/
def zeroWeightState : State :=
  { pickedState with
    safetyPoints :=
      [{ id := 1000, safetyLat := "19.05", safetyLon := "-99.05", safetyRadius := "350",
         safetyIndex := "4", safetyWeight := "0" }] }

/-- The state after the block of `pickedState` was given a place on the map: its
"select on map" button, then a click on the map. -/
def placedState : State :=
  (formRun decimalBuiltins pickedState
    [FormEvent.clickSelectOnMap 0,
     FormEvent.clickMap (LatLng.mk (1905 / 100) (-9905 / 100))]).getD pickedState

/-- The entry that `updateSafetyMarker` pushes when the map listener calls it for the block
`el` in safety mode: marker and circle at the clicked position. -/
def placedEntry (E : Builtins) (current : CurrentSafetyPoint) (el : SafetyPointEl)
    (latlng : LatLng) : SafetyMarker :=
  { id := current.id
    marker :=
      { latlng := latlng
        icon := Icon.safetyIcon current.safetyIndex (safetyColors current.safetyIndex).1 }
    circle :=
      { latlng := latlng
        radius := (E.parseFloat el.safetyRadius).orElse (JSNum.fin 200)
        color := (safetyColors current.safetyIndex).1
        fillColor := (safetyColors current.safetyIndex).2
        level := some current.safetyIndex }
    radius := (E.parseFloat el.safetyRadius).orElse (JSNum.fin 200)
    safetyIndex := current.safetyIndex }

/-! # Theorems -/

/-! ## Frame lemmas for the browser primitives -/

theorem clearInterval_sent (h : Option Nat) (s : State) :
    (clearInterval h s).sent = s.sent := by
  cases h <;> rfl

theorem collectSafetyPoint_eq (E : Builtins) (acc : List SafetyPoint) (el : SafetyPointEl) :
    collectSafetyPoint E acc el =
      if numericCoordinates E el then acc ++ [pushedSafetyPoint E el] else acc := by
  simp only [collectSafetyPoint, numericCoordinates, pushedSafetyPoint]

theorem foldl_collectSafetyPoint (E : Builtins) (rows : List SafetyPointEl) :
    ∀ acc : List SafetyPoint,
      rows.foldl (collectSafetyPoint E) acc =
        acc ++ (rows.filter (numericCoordinates E)).map (pushedSafetyPoint E) := by
  induction rows with
  | nil => intro acc; simp
  | cons el rest ih =>
    intro acc
    rw [List.foldl_cons, ih, collectSafetyPoint_eq]
    by_cases h : numericCoordinates E el = true
    · simp [h, List.filter_cons]
    · simp [h, List.filter_cons]

theorem calculateRoute_of_valid (E : Builtins) (s : State) (h : validCoordinates E s) :
    calculateRoute E s =
      { s with
        resultsHidden := true, errorHidden := true, loadingHidden := false,
        routeLayer := s.routeLayer.map (fun layer => { layer with onMap := false }),
        activeTimers :=
          if timerTruthy s.checkResultInterval then
            (clearInterval s.checkResultInterval s).activeTimers
          else s.activeTimers,
        sent := s.sent ++ [Request.calculateRoute (requestDataOf E s)],
        pendingCalculate := s.pendingCalculate + 1 } := by
  obtain ⟨h1, h2, h3, h4⟩ := h
  simp only [calculateRoute, h1, h2, h3, h4, Bool.or_self, Bool.false_eq_true, if_false]
  cases hv : s.checkResultInterval with
  | none => cases hr : s.routeLayer <;> simp [fetch, clearInterval, timerTruthy, requestDataOf]
  | some id =>
    cases ht : timerTruthy (some id) <;> cases hr : s.routeLayer <;>
      simp [fetch, clearInterval, ht, requestDataOf]

theorem calculateRoute_sent (E : Builtins) (s : State) (h : validCoordinates E s) :
    ∃ body : RequestData,
      (calculateRoute E s).sent = s.sent ++ [Request.calculateRoute body] ∧
      body.safety_points =
        (s.safetyPoints.filter (numericCoordinates E)).map (pushedSafetyPoint E) := by
  refine ⟨requestDataOf E s, ?_, ?_⟩
  · rw [calculateRoute_of_valid E s h]
  · simp [requestDataOf, foldl_collectSafetyPoint]

/-- C1: when at least one of the four start/end coordinate controls does not parse to a
number, `calculateRoute` only shows the validation message: the state afterwards is the
state before with the loading indicator hidden, the error panel shown and its text set to
the message, so no request is issued and the route layer, the timer handle and the active
timers are as before. -/
theorem calculateRoute_rejects_non_numeric (E : Builtins) (s : State)
    (h : (E.parseFloat s.startLat).isNaN = true ∨ (E.parseFloat s.startLon).isNaN = true ∨
      (E.parseFloat s.endLat).isNaN = true ∨ (E.parseFloat s.endLon).isNaN = true) :
    calculateRoute E s =
        { s with loadingHidden := true, errorHidden := false
                 errorText := "Por favor selecciona puntos de inicio y fin en el mapa" } ∧
      (calculateRoute E s).sent = s.sent ∧
      (calculateRoute E s).pendingCalculate = s.pendingCalculate ∧
      (calculateRoute E s).errorHidden = false ∧
      (calculateRoute E s).errorText = "Por favor selecciona puntos de inicio y fin en el mapa" ∧
      (calculateRoute E s).routeLayer = s.routeLayer ∧
      (calculateRoute E s).checkResultInterval = s.checkResultInterval ∧
      (calculateRoute E s).activeTimers = s.activeTimers := by
  have hc : ((E.parseFloat s.startLat).isNaN || (E.parseFloat s.startLon).isNaN ||
      (E.parseFloat s.endLat).isNaN || (E.parseFloat s.endLon).isNaN) = true := by
    rcases h with h | h | h | h <;> simp [h]
  have he : calculateRoute E s =
      { s with loadingHidden := true, errorHidden := false
               errorText := "Por favor selecciona puntos de inicio y fin en el mapa" } := by
    simp only [calculateRoute, hc, if_true, showError]
  rw [he]
  exact ⟨rfl, rfl, rfl, rfl, rfl, rfl, rfl, rfl⟩

/-- Witness of C1: on the freshly loaded page the coordinate controls are empty. -/
theorem calculateRoute_rejects_non_numeric_witness :
    (decimalBuiltins.parseFloat (initialState blankPage 1000).startLat).isNaN = true ∧
      (calculateRoute decimalBuiltins (initialState blankPage 1000)).sent = [] ∧
      (calculateRoute decimalBuiltins (initialState blankPage 1000)).errorText =
        "Por favor selecciona puntos de inicio y fin en el mapa" :=
  ⟨by decide,
    (calculateRoute_rejects_non_numeric decimalBuiltins (initialState blankPage 1000)
      (Or.inl (by decide))).2.1,
    (calculateRoute_rejects_non_numeric decimalBuiltins (initialState blankPage 1000)
      (Or.inl (by decide))).2.2.2.2.1⟩

/-- C2: with numeric start/end coordinates `calculateRoute` issues exactly one request, and
the `safety_points` of its body correspond one to one, in form order, to the blocks whose
latitude and longitude both parse to numbers (each entry carrying the parsed latitude and
longitude of its block); blocks with a non-numeric latitude or longitude contribute no
entry. -/
theorem calculateRoute_safety_points_rows (E : Builtins) (s : State)
    (h : validCoordinates E s) :
    ∃ body : RequestData,
      (calculateRoute E s).sent = s.sent ++ [Request.calculateRoute body] ∧
      List.Forall₂
        (fun el p => p.lat = E.parseFloat el.safetyLat ∧ p.lon = E.parseFloat el.safetyLon)
        (s.safetyPoints.filter
          (fun el => !(E.parseFloat el.safetyLat).isNaN && !(E.parseFloat el.safetyLon).isNaN))
        body.safety_points := by
  obtain ⟨body, hsent, hpoints⟩ := calculateRoute_sent E s h
  refine ⟨body, hsent, ?_⟩
  rw [hpoints, List.forall₂_map_right_iff]
  exact List.forall₂_same.mpr (fun el _ => ⟨rfl, rfl⟩)

/-- Witness of C2: of three blocks, the first and the third have numeric coordinates. -/
theorem calculateRoute_safety_points_rows_witness :
    validCoordinates decimalBuiltins threePointsState ∧
      (threePointsState.safetyPoints.filter
          (fun el => !(decimalBuiltins.parseFloat el.safetyLat).isNaN &&
            !(decimalBuiltins.parseFloat el.safetyLon).isNaN)).map (fun el => el.id) =
        [1000, 1002] ∧
      ∃ body : RequestData,
        (calculateRoute decimalBuiltins threePointsState).sent =
          threePointsState.sent ++ [Request.calculateRoute body] ∧
        List.Forall₂
          (fun el p => p.lat = decimalBuiltins.parseFloat el.safetyLat ∧
            p.lon = decimalBuiltins.parseFloat el.safetyLon)
          (threePointsState.safetyPoints.filter
            (fun el => !(decimalBuiltins.parseFloat el.safetyLat).isNaN &&
              !(decimalBuiltins.parseFloat el.safetyLon).isNaN))
          body.safety_points :=
  ⟨⟨by decide, by decide, by decide, by decide⟩, by decide,
    calculateRoute_safety_points_rows decimalBuiltins threePointsState
      ⟨by decide, by decide, by decide, by decide⟩⟩

/-- C3: with numeric start/end coordinates, every block with numeric latitude and longitude
has its entry in the `safety_points` of the request, and that entry has radius 200 when the
radius control does not parse to a number, safety index 1 when the index control does not,
and weight 1.0 when the weight control does not. -/
theorem calculateRoute_safety_point_defaults (E : Builtins) (s : State)
    (h : validCoordinates E s) :
    ∃ body : RequestData,
      (calculateRoute E s).sent = s.sent ++ [Request.calculateRoute body] ∧
      List.Forall₂
        (fun el p =>
          ((E.parseFloat el.safetyRadius).isNaN = true → p.radius = JSNum.fin 200) ∧
          ((E.parseInt el.safetyIndex).isNaN = true → p.safety_index = JSNum.fin 1) ∧
          ((E.parseFloat el.safetyWeight).isNaN = true → p.weight = JSNum.fin 1))
        (s.safetyPoints.filter
          (fun el => !(E.parseFloat el.safetyLat).isNaN && !(E.parseFloat el.safetyLon).isNaN))
        body.safety_points := by
  obtain ⟨body, hsent, hpoints⟩ := calculateRoute_sent E s h
  refine ⟨body, hsent, ?_⟩
  rw [hpoints, List.forall₂_map_right_iff]
  refine List.forall₂_same.mpr (fun el _ => ⟨?_, ?_, ?_⟩)
  · intro hr; simp [pushedSafetyPoint, hr]
  · intro hi; simp [pushedSafetyPoint, hi]
  · intro hw
    have : (E.parseFloat el.safetyWeight).orElse (JSNum.fin 1) = JSNum.fin 1 := by
      cases hv : E.parseFloat el.safetyWeight <;> simp_all [JSNum.orElse, JSNum.truthy, JSNum.isNaN]
    simp [pushedSafetyPoint, this, JSNum.isNaN]


/-- Witness of C3: the third block of `threePointsState` has numeric coordinates and empty
radius, index and weight controls. -/
theorem calculateRoute_safety_point_defaults_witness :
    validCoordinates decimalBuiltins threePointsState ∧
      ∃ body : RequestData,
        (calculateRoute decimalBuiltins threePointsState).sent =
          threePointsState.sent ++ [Request.calculateRoute body] ∧
        List.Forall₂
          (fun el p =>
            ((decimalBuiltins.parseFloat el.safetyRadius).isNaN = true →
              p.radius = JSNum.fin 200) ∧
            ((decimalBuiltins.parseInt el.safetyIndex).isNaN = true →
              p.safety_index = JSNum.fin 1) ∧
            ((decimalBuiltins.parseFloat el.safetyWeight).isNaN = true →
              p.weight = JSNum.fin 1))
          (threePointsState.safetyPoints.filter
            (fun el => !(decimalBuiltins.parseFloat el.safetyLat).isNaN &&
              !(decimalBuiltins.parseFloat el.safetyLon).isNaN))
          body.safety_points :=
  ⟨⟨by decide, by decide, by decide, by decide⟩,
    calculateRoute_safety_point_defaults decimalBuiltins threePointsState
      ⟨by decide, by decide, by decide, by decide⟩⟩

/-- C5: a poll reply with HTTP status 404 changes nothing: the state after handling it is
the state before (so an active timer stays active, no error is shown and the displayed
results are as before), and it is handled exactly as an OK reply whose body is the object
with only `status: 'processing'`. -/
theorem checkRouteResultReply_not_found (E : Builtins) (s : State)
    (json : Except String RouteData) :
    checkRouteResultReply E (FetchOutcome.response 404 json) s = s ∧
      checkRouteResultReply E (FetchOutcome.response 404 json) s =
        checkRouteResultReply E (FetchOutcome.response 200 (Except.ok processingData)) s := by
  constructor <;> simp [checkRouteResultReply, checkRouteResultResponse, responseOk, processingData, strTruthy]

/-- C7: for a result whose `error` member is absent (or empty) and which lacks at least one
of `summary`, `path`, `segments`, `displayRouteResult` only hides the loading indicator when
the status is `processing`, and otherwise hides it and shows the error
`Datos de ruta incompletos`; nothing else of the state (summary fields, segment list, route
layer, markers) changes. -/
theorem displayRouteResult_incomplete (E : Builtins) (result : RouteData) (s : State)
    (herror : strTruthy result.error = false)
    (hmissing : result.summary = none ∨ result.path = none ∨ result.segments = none) :
    displayRouteResult E result s =
      if result.status = some "processing" then { s with loadingHidden := true }
      else { s with loadingHidden := true, errorHidden := false
                    errorText := "Datos de ruta incompletos" } := by
  unfold displayRouteResult
  simp only [herror, Bool.false_eq_true, if_false]
  revert hmissing
  generalize result.summary = a
  generalize result.path = b
  generalize result.segments = c
  intro h
  cases a <;> cases b <;> cases c <;> simp at h <;> rfl

/-- Witness of C7: the body with only `status: 'processing'`, and the same body with
status `completed`. -/
theorem displayRouteResult_incomplete_witness :
    displayRouteResult decimalBuiltins processingData pickedState =
        { pickedState with loadingHidden := true } ∧
      displayRouteResult decimalBuiltins { processingData with status := some "completed" }
          pickedState =
        { pickedState with loadingHidden := true, errorHidden := false
                           errorText := "Datos de ruta incompletos" } :=
  ⟨displayRouteResult_incomplete decimalBuiltins processingData pickedState rfl (Or.inl rfl),
    displayRouteResult_incomplete decimalBuiltins { processingData with status := some "completed" }
      pickedState rfl (Or.inl rfl)⟩

theorem extendBounds_foldl_le (ps : List LatLng) :
    ∀ b : LatLngBounds,
      (ps.foldl extendBounds b).south ≤ b.south ∧ (ps.foldl extendBounds b).west ≤ b.west ∧
      b.north ≤ (ps.foldl extendBounds b).north ∧ b.east ≤ (ps.foldl extendBounds b).east := by
  induction ps with
  | nil => intro b; simp
  | cons p ps ih =>
    intro b
    obtain ⟨h1, h2, h3, h4⟩ := ih (extendBounds b p)
    simp only [List.foldl_cons]
    refine ⟨le_trans h1 (min_le_left _ _), le_trans h2 (min_le_left _ _),
      le_trans (le_max_left _ _) h3, le_trans (le_max_left _ _) h4⟩

theorem extendBounds_foldl_mem (ps : List LatLng) :
    ∀ b : LatLngBounds, ∀ p ∈ ps,
      (ps.foldl extendBounds b).south ≤ p.lat ∧ p.lat ≤ (ps.foldl extendBounds b).north ∧
      (ps.foldl extendBounds b).west ≤ p.lng ∧ p.lng ≤ (ps.foldl extendBounds b).east := by
  induction ps with
  | nil => intro b p hp; simp at hp
  | cons q ps ih =>
    intro b p hp
    simp only [List.foldl_cons]
    rcases List.mem_cons.mp hp with rfl | hp
    · obtain ⟨h1, h2, h3, h4⟩ := extendBounds_foldl_le ps (extendBounds b p)
      exact ⟨le_trans h1 (min_le_right _ _), le_trans (le_max_right _ _) h3,
        le_trans h2 (min_le_right _ _), le_trans (le_max_right _ _) h4⟩
    · exact ih _ p hp

theorem getBounds_mem (ps : List LatLng) (b : LatLngBounds) (h : getBounds ps = some b) :
    ∀ p ∈ ps, b.south ≤ p.lat ∧ p.lat ≤ b.north ∧ b.west ≤ p.lng ∧ p.lng ≤ b.east := by
  cases ps with
  | nil => simp [getBounds] at h
  | cons q ps =>
    simp only [getBounds, Option.some.injEq] at h
    subst h
    intro p hp
    rcases List.mem_cons.mp hp with rfl | hp
    · obtain ⟨h1, h2, h3, h4⟩ :=
        extendBounds_foldl_le ps { south := p.lat, west := p.lng, north := p.lat, east := p.lng }
      exact ⟨h1, h3, h2, h4⟩
    · exact extendBounds_foldl_mem ps _ p hp

theorem drawRouteOnMap_cons (first : ℚ × ℚ) (rest : List (ℚ × ℚ)) (s : State) :
    drawRouteOnMap (first :: rest) s =
      Completion.normal
        (updateEndMarker
          (LatLng.mk ((first :: rest).getLast (List.cons_ne_nil _ _)).1
            ((first :: rest).getLast (List.cons_ne_nil _ _)).2)
          (updateStartMarker (LatLng.mk first.1 first.2)
            { s with
              routeLayer :=
                some { latLngs := (first :: rest).map (fun point => LatLng.mk point.1 point.2),
                       onMap := true }
              view :=
                MapView.fitBounds
                  ((rest.map (fun point => LatLng.mk point.1 point.2)).foldl extendBounds
                    { south := first.1, west := first.2, north := first.1, east := first.2 }) })) := by
  have hlast : (first :: rest)[(first :: rest).length - 1]? =
      some ((first :: rest).getLast (List.cons_ne_nil _ _)) := by
    rw [← List.getLast?_eq_getElem?, List.getLast?_eq_getLast _ (List.cons_ne_nil _ _)]
  unfold drawRouteOnMap
  simp only [List.map_cons, getBounds, hlast, List.getElem?_cons_zero]
  cases s.routeLayer <;> rfl

theorem updateStartMarker_frame (latlng : LatLng) (s : State) :
    (updateStartMarker latlng s).startMarker.map (fun m => m.latlng) = some latlng ∧
      (updateStartMarker latlng s).endMarker = s.endMarker ∧
      (updateStartMarker latlng s).routeLayer = s.routeLayer ∧
      (updateStartMarker latlng s).view = s.view := by
  cases h : s.startMarker <;> simp [updateStartMarker, h]

theorem updateEndMarker_frame (latlng : LatLng) (s : State) :
    (updateEndMarker latlng s).endMarker.map (fun m => m.latlng) = some latlng ∧
      (updateEndMarker latlng s).startMarker = s.startMarker ∧
      (updateEndMarker latlng s).routeLayer = s.routeLayer ∧
      (updateEndMarker latlng s).view = s.view := by
  cases h : s.endMarker <;> simp [updateEndMarker, h]

/-- C8: for every non-empty path, `drawRouteOnMap` completes normally, and afterwards the
start marker is at the first pair of the path, the end marker at the last pair, the route
layer is on the map and holds the points of the path in order, and the view is fitted to
bounds that contain every point of the path; this holds for every state before the call,
with or without start and end markers. -/
theorem drawRouteOnMap_places_markers (path : List (ℚ × ℚ)) (s : State) (h : path ≠ []) :
    ∃ s1 : State, ∃ bounds : LatLngBounds,
      drawRouteOnMap path s = Completion.normal s1 ∧
      s1.startMarker.map (fun m => m.latlng) =
        some (LatLng.mk (path.head h).1 (path.head h).2) ∧
      s1.endMarker.map (fun m => m.latlng) =
        some (LatLng.mk (path.getLast h).1 (path.getLast h).2) ∧
      s1.routeLayer =
        some { latLngs := path.map (fun point => LatLng.mk point.1 point.2), onMap := true } ∧
      s1.view = MapView.fitBounds bounds ∧
      ∀ point ∈ path, bounds.south ≤ point.1 ∧ point.1 ≤ bounds.north ∧
        bounds.west ≤ point.2 ∧ point.2 ≤ bounds.east := by
  obtain ⟨first, rest, rfl⟩ := List.exists_cons_of_ne_nil h
  have hd := drawRouteOnMap_cons first rest s
  refine ⟨_, (rest.map (fun point => LatLng.mk point.1 point.2)).foldl extendBounds
      { south := first.1, west := first.2, north := first.1, east := first.2 }, hd, ?_, ?_, ?_, ?_, ?_⟩
  · rw [(updateEndMarker_frame _ _).2.1]
    exact (updateStartMarker_frame _ _).1
  · exact (updateEndMarker_frame _ _).1
  · rw [(updateEndMarker_frame _ _).2.2.1, (updateStartMarker_frame _ _).2.2.1]
  · rw [(updateEndMarker_frame _ _).2.2.2, (updateStartMarker_frame _ _).2.2.2]
  · intro point hp
    have hb : getBounds ((first :: rest).map (fun point => LatLng.mk point.1 point.2)) =
        some ((rest.map (fun point => LatLng.mk point.1 point.2)).foldl extendBounds
          { south := first.1, west := first.2, north := first.1, east := first.2 }) := rfl
    exact getBounds_mem _ _ hb (LatLng.mk point.1 point.2)
      (List.mem_map_of_mem (fun point : ℚ × ℚ => LatLng.mk point.1 point.2) hp)

/-- Witness of C8: the path `[[19.0,-99.0],[19.1,-99.1]]`. -/
theorem drawRouteOnMap_places_markers_witness :
    ∃ s1 : State, ∃ bounds : LatLngBounds,
      drawRouteOnMap [(19, -99), (191 / 10, -991 / 10)] pickedState = Completion.normal s1 ∧
      s1.startMarker.map (fun m => m.latlng) = some (LatLng.mk 19 (-99)) ∧
      s1.endMarker.map (fun m => m.latlng) = some (LatLng.mk (191 / 10) (-991 / 10)) ∧
      s1.routeLayer =
        some { latLngs := [LatLng.mk 19 (-99), LatLng.mk (191 / 10) (-991 / 10)], onMap := true } ∧
      s1.view = MapView.fitBounds bounds ∧
      ∀ point ∈ [((19 : ℚ), (-99 : ℚ)), (191 / 10, -991 / 10)],
        bounds.south ≤ point.1 ∧ point.1 ≤ bounds.north ∧
        bounds.west ≤ point.2 ∧ point.2 ≤ bounds.east :=
  drawRouteOnMap_places_markers [(19, -99), (191 / 10, -991 / 10)] pickedState (by simp)

theorem eraseIdx_findIdx? {α : Type} (p : α → Bool) (l : List α) :
    (match l.findIdx? p with
      | some i => l.eraseIdx i
      | none => l) = l.eraseP p := by
  induction l with
  | nil => rfl
  | cons a l ih =>
    by_cases h : p a = true
    · simp [h]
    · simp only [List.findIdx?_cons, h, Bool.false_eq_true, if_false, List.findIdx?_succ,
        List.eraseP_cons]
      cases hf : l.findIdx? p with
      | none => simp [hf] at ih ⊢; exact ih
      | some i => simp [hf] at ih ⊢; exact ih

theorem removeSafetyPoint_eq (id : Nat) (s : State) :
    removeSafetyPoint id s =
      { s with
        safetyPoints := s.safetyPoints.eraseP (fun el => el.id == id)
        safetyMarkers := s.safetyMarkers.eraseP (fun m => m.id == id) } := by
  have h1 := eraseIdx_findIdx? (fun el : SafetyPointEl => el.id == id) s.safetyPoints
  have h2 := eraseIdx_findIdx? (fun m : SafetyMarker => m.id == id) s.safetyMarkers
  unfold removeSafetyPoint
  cases hf : s.safetyPoints.findIdx? (fun el => el.id == id) <;>
    cases hg : s.safetyMarkers.findIdx? (fun m => m.id == id) <;>
    simp only [hf, hg] at h1 h2 ⊢ <;> simp [← h1, ← h2]

/-- C9: when the ids of the form blocks are pairwise distinct and `id` is the id of a block,
`removeSafetyPoint id` removes exactly that block, keeping the other blocks in order; it
removes from `safetyMarkers` the first entry with that id, if there is one, keeping the other
entries in order (and no entry with that id remains when the entries have distinct ids);
and it changes nothing else. -/
theorem removeSafetyPoint_removes_only_that_point (s : State) (id : Nat)
    (hdistinct : (s.safetyPoints.map (fun el => el.id)).Nodup)
    (hrow : id ∈ s.safetyPoints.map (fun el => el.id)) :
    (∃ before el after, s.safetyPoints = before ++ el :: after ∧ el.id = id ∧
        (removeSafetyPoint id s).safetyPoints = before ++ after ∧
        ∀ x ∈ before ++ after, x.id ≠ id) ∧
      (((∀ m ∈ s.safetyMarkers, m.id ≠ id) ∧
          (removeSafetyPoint id s).safetyMarkers = s.safetyMarkers) ∨
        ∃ before m after, s.safetyMarkers = before ++ m :: after ∧ m.id = id ∧
          (∀ x ∈ before, x.id ≠ id) ∧
          ((s.safetyMarkers.map (fun m => m.id)).Nodup → ∀ x ∈ after, x.id ≠ id) ∧
          (removeSafetyPoint id s).safetyMarkers = before ++ after) ∧
      removeSafetyPoint id s =
        { s with safetyPoints := (removeSafetyPoint id s).safetyPoints
                 safetyMarkers := (removeSafetyPoint id s).safetyMarkers } := by
  rw [removeSafetyPoint_eq]
  refine ⟨?_, ?_, rfl⟩
  · obtain ⟨el, hel, hid⟩ := List.mem_map.mp hrow
    obtain ⟨a, l₁, l₂, _, ha, hl, he⟩ :=
      List.exists_of_eraseP (p := fun el : SafetyPointEl => el.id == id) hel (by simpa using hid)
    have ha' : a.id = id := by simpa using ha
    refine ⟨l₁, a, l₂, hl, ha', he, ?_⟩
    rw [hl, List.map_append, List.map_cons, List.nodup_middle, List.nodup_cons] at hdistinct
    intro x hx hxid
    apply hdistinct.1
    rw [← List.map_append, ha', ← hxid]
    exact List.mem_map_of_mem _ hx
  · by_cases h : ∃ m ∈ s.safetyMarkers, m.id = id
    · obtain ⟨m, hm, hid⟩ := h
      obtain ⟨a, l₁, l₂, hbefore, ha, hl, he⟩ :=
        List.exists_of_eraseP (p := fun m : SafetyMarker => m.id == id) hm (by simpa using hid)
      have ha' : a.id = id := by simpa using ha
      refine Or.inr ⟨l₁, a, l₂, hl, ha', fun x hx => by simpa using hbefore x hx, ?_, he⟩
      intro hnodup x hx hxid
      rw [hl, List.map_append, List.map_cons, List.nodup_middle, List.nodup_cons] at hnodup
      apply hnodup.1
      rw [← List.map_append, ha', ← hxid]
      exact List.mem_map_of_mem _ (List.mem_append_right _ hx)
    · have h' : ∀ m ∈ s.safetyMarkers, m.id ≠ id := fun m hm hid => h ⟨m, hm, hid⟩
      exact Or.inl ⟨h', List.eraseP_of_forall_not (fun m hm => by simpa using h' m hm)⟩

/-- Witness of C9: removing the first of three blocks, two of which have a marker. -/
theorem removeSafetyPoint_removes_only_that_point_witness :
    (markedState.safetyPoints.map (fun el => el.id)).Nodup ∧
      1000 ∈ markedState.safetyPoints.map (fun el => el.id) ∧
      (removeSafetyPoint 1000 markedState).safetyPoints.map (fun el => el.id) = [1001, 1002] ∧
      (removeSafetyPoint 1000 markedState).safetyMarkers.map (fun m => m.id) = [1002] ∧
      removeSafetyPoint 1000 markedState =
        { markedState with
          safetyPoints := (removeSafetyPoint 1000 markedState).safetyPoints
          safetyMarkers := (removeSafetyPoint 1000 markedState).safetyMarkers } :=
  ⟨by decide, by decide, by decide, by decide,
    (removeSafetyPoint_removes_only_that_point markedState 1000 (by decide) (by decide)).2.2⟩

theorem timers_updateStartMarker (latlng : LatLng) (s : State) :
    timers (updateStartMarker latlng s) = timers s := by
  cases h : s.startMarker <;> simp [updateStartMarker, h, timers]

theorem timers_updateEndMarker (latlng : LatLng) (s : State) :
    timers (updateEndMarker latlng s) = timers s := by
  cases h : s.endMarker <;> simp [updateEndMarker, h, timers]

theorem timers_drawRouteOnMap (path : List (ℚ × ℚ)) (s : State) :
    timers (drawRouteOnMap path s).state = timers s := by
  cases path with
  | nil => cases h : s.routeLayer <;> simp [drawRouteOnMap, getBounds, h, Completion.state, timers]
  | cons first rest =>
    rw [drawRouteOnMap_cons, Completion.state, timers_updateEndMarker, timers_updateStartMarker]
    rfl

theorem timers_foldl_segments (E : Builtins) (items : List (Nat × Segment)) :
    ∀ s : State,
      timers (items.foldl
        (fun st p => { st with segmentsList := st.segmentsList ++ [segmentItem E p.2 p.1] }) s) =
        timers s := by
  induction items with
  | nil => intro s; rfl
  | cons p items ih => intro s; rw [List.foldl_cons, ih]; rfl

theorem timers_drawn (path : List (ℚ × ℚ)) (s : State) :
    timers (if path.length > 0 then drawRouteOnMap path s else Completion.normal s).state =
      timers s := by
  split
  · exact timers_drawRouteOnMap path s
  · rfl

theorem timers_renderRouteResult (E : Builtins) (result : RouteData) (summary : Summary)
    (path : List (ℚ × ℚ)) (segments : List Segment) (s : State) :
    timers (renderRouteResult E result summary path segments s).state = timers s := by
  have h := timers_drawn path
    (segments.enum.foldl
      (fun st p => { st with segmentsList := st.segmentsList ++ [segmentItem E p.2 p.1] })
      { s with
        totalDistance := toFixedOr E summary.total_distance_km 2 "0.00" ++ " km"
        totalTime := toFixedOr E summary.total_time_minutes 1 "0.0" ++ " min"
        safetyLevel := textOr summary.safety_level "Desconocido"
        optimizationType :=
          optimizationLabel (textOr (result.metadata.bind (fun m => m.optimization)) "balanced")
        segmentsList := [] })
  rw [timers_foldl_segments] at h
  unfold renderRouteResult
  simp only
  split
  · rename_i s5 h5
    rw [h5] at h
    exact h
  · rename_i s5 h5
    rw [h5] at h
    exact h

theorem timers_showError (message : String) (s : State) :
    timers (showError message s) = timers s := rfl

theorem timers_displayRouteResult (E : Builtins) (result : RouteData) (s : State) :
    timers (displayRouteResult E result s) = timers s := by
  unfold displayRouteResult
  simp only
  split
  · rfl
  · split
    · rename_i summary path segments _ _ _
      have h := timers_renderRouteResult E result summary path segments { s with loadingHidden := true }
      cases hr : renderRouteResult E result summary path segments { s with loadingHidden := true } with
      | normal s2 => rw [hr] at h; exact h
      | abrupt s2 => rw [hr] at h; exact h
    · split <;> rfl

theorem timers_clearInterval (h : Option Nat) (s : State) :
    timers (clearInterval h s) =
      (match h with
        | some id => s.activeTimers.filter (fun t => t != id)
        | none => s.activeTimers,
       s.checkResultInterval, s.timerCounter, s.pendingCalculate, s.pendingPoll) := by
  cases h <;> rfl

theorem clearInterval_single (s : State)
    (h : s.activeTimers = [] ∨
      ∃ t, t ≠ 0 ∧ s.activeTimers = [t] ∧ s.checkResultInterval = some t) :
    (clearInterval s.checkResultInterval s).activeTimers = [] := by
  rcases h with h | ⟨t, _, ht, hv⟩
  · cases hc : s.checkResultInterval <;> simp [clearInterval, h]
  · simp [clearInterval, ht, hv]

theorem timerTruthy_of_single (s : State)
    (h : s.activeTimers = [] ∨
      ∃ t, t ≠ 0 ∧ s.activeTimers = [t] ∧ s.checkResultInterval = some t)
    (hfalse : timerTruthy s.checkResultInterval = false) : s.activeTimers = [] := by
  rcases h with h | ⟨t, ht0, _, hv⟩
  · exact h
  · simp [hv, timerTruthy, ht0] at hfalse

theorem timers_calculateRoute (E : Builtins) (s : State) :
    timers (calculateRoute E s) = timers s ∨
      timers (calculateRoute E s) =
        ((if timerTruthy s.checkResultInterval then clearInterval s.checkResultInterval s
            else s).activeTimers,
          s.checkResultInterval, s.timerCounter, s.pendingCalculate + 1, s.pendingPoll) := by
  unfold calculateRoute
  simp only
  split
  · exact Or.inl rfl
  · refine Or.inr ?_
    cases hr : s.routeLayer <;> cases ht : timerTruthy s.checkResultInterval <;>
      cases hc : s.checkResultInterval <;> simp [timers, fetch, clearInterval, ht]

theorem timers_checkRouteResult (taskId : Option String) (s : State) :
    timers (checkRouteResult taskId s) = timers s ∨
      timers (checkRouteResult taskId s) =
        (s.activeTimers, s.checkResultInterval, s.timerCounter, s.pendingCalculate,
          s.pendingPoll + 1) := by
  unfold checkRouteResult
  split
  · split
    · exact Or.inr rfl
    · exact Or.inl rfl
  · exact Or.inl rfl

theorem timers_calculateRouteReply (E : Builtins) (o : FetchOutcome) (s : State) :
    timers (calculateRouteReply E o s) = timers s ∨
      timers (calculateRouteReply E o s) =
        (s.activeTimers ++ [s.timerCounter + 1], some (s.timerCounter + 1), s.timerCounter + 1,
          s.pendingCalculate, s.pendingPoll) := by
  unfold calculateRouteReply
  split
  · split
    · exact Or.inr rfl
    · split
      · left; rw [timers_displayRouteResult]; rfl
      · exact Or.inl rfl
  · exact Or.inl rfl

theorem timers_checkRouteResultReply (E : Builtins) (o : FetchOutcome) (s : State) :
    timers (checkRouteResultReply E o s) = timers s ∨
      timers (checkRouteResultReply E o s) = timers (clearInterval s.checkResultInterval s) := by
  unfold checkRouteResultReply
  split
  · split
    · right; rw [timers_displayRouteResult]
    · split
      · exact Or.inr rfl
      · exact Or.inl rfl
  · exact Or.inr rfl

theorem timers_resetCalculation (now : Nat) (s : State) :
    timers (resetCalculation now s) =
      if timerTruthy s.checkResultInterval then
        ((clearInterval s.checkResultInterval s).activeTimers, none, s.timerCounter,
          s.pendingCalculate, s.pendingPoll)
      else timers s := by
  unfold resetCalculation
  cases hc : s.checkResultInterval with
  | none =>
    cases hr : s.routeLayer <;> cases hs : s.startMarker <;> cases he : s.endMarker <;>
      simp [timers, addSafetyPoint, clearInterval, timerTruthy, hc]
  | some id =>
    cases ht : timerTruthy (some id) <;>
      cases hr : s.routeLayer <;> cases hs : s.startMarker <;> cases he : s.endMarker <;>
      simp [timers, addSafetyPoint, clearInterval, ht, hc]

theorem SingleTimer_of_timers (s1 : State) (a : List Nat) (v : Option Nat) (c p q : Nat)
    (h : timers s1 = (a, v, c, p, q)) (hp : p ≤ 1) (hpa : p = 1 → a = [])
    (ha : a = [] ∨ ∃ t, t ≠ 0 ∧ a = [t] ∧ v = some t) : SingleTimer s1 := by
  simp only [timers, Prod.mk.injEq] at h
  obtain ⟨h1, h2, _, h4, _⟩ := h
  unfold SingleTimer
  rw [h1, h2, h4]
  exact ⟨hp, hpa, ha⟩

theorem SingleTimer_stepSerial (E : Builtins) (s s1 : State) (e : Event) (h : SingleTimer s)
    (hs : stepSerial E s e = some s1) : SingleTimer s1 := by
  obtain ⟨hp, hpa, ha⟩ := h
  cases e with
  | clickCalculate =>
    simp only [stepSerial, step] at hs
    split at hs
    · rename_i hp0
      simp only [Option.some.injEq] at hs
      subst hs
      rcases timers_calculateRoute E s with ht | ht
      · exact SingleTimer_of_timers _ _ _ _ _ _ ht hp hpa ha
      · refine SingleTimer_of_timers _ _ _ _ _ _ ht (by omega) (fun _ => ?_) (Or.inl ?_)
        all_goals
          split
          · exact clearInterval_single s ha
          · rename_i hf
            exact timerTruthy_of_single s ha (by simpa using hf)
    · simp at hs
  | calculateReply o =>
    simp only [stepSerial, step] at hs
    split at hs
    · simp at hs
    · rename_i hp0
      simp only [Option.some.injEq] at hs
      subst hs
      have hp1 : s.pendingCalculate = 1 := by omega
      have hempty := hpa hp1
      rcases timers_calculateRouteReply E o { s with pendingCalculate := s.pendingCalculate - 1 }
        with ht | ht
      · exact SingleTimer_of_timers _ _ _ _ _ _ ht (by simp [hp1]) (fun _ => hempty) (Or.inl hempty)
      · refine SingleTimer_of_timers _ _ _ _ _ _ ht (by simp [hp1]) (fun h => ?_) (Or.inr ?_)
        · simp [hp1] at h
        · exact ⟨s.timerCounter + 1, by omega, by simp [hempty], rfl⟩
  | pollTick timer =>
    simp only [stepSerial, step] at hs
    split at hs
    · simp only [Option.some.injEq] at hs
      subst hs
      rcases timers_checkRouteResult s.currentTaskId s with ht | ht
      · exact SingleTimer_of_timers _ _ _ _ _ _ ht hp hpa ha
      · exact SingleTimer_of_timers _ _ _ _ _ _ ht hp hpa ha
    · simp at hs
  | pollReply o =>
    simp only [stepSerial, step] at hs
    split at hs
    · simp at hs
    · simp only [Option.some.injEq] at hs
      subst hs
      rcases timers_checkRouteResultReply E o { s with pendingPoll := s.pendingPoll - 1 }
        with ht | ht
      · exact SingleTimer_of_timers _ _ _ _ _ _ ht hp hpa ha
      · rw [timers_clearInterval] at ht
        refine SingleTimer_of_timers _ _ _ _ _ _ ht hp (fun _ => ?_) (Or.inl ?_)
        all_goals
          have := clearInterval_single s ha
          cases hc : s.checkResultInterval <;> simpa [clearInterval, hc] using this
  | clickNewCalculation now =>
    simp only [stepSerial, step, Option.some.injEq] at hs
    subst hs
    have ht := timers_resetCalculation now s
    split at ht
    · exact SingleTimer_of_timers _ _ _ _ _ _ ht hp (fun _ => clearInterval_single s ha)
        (Or.inl (clearInterval_single s ha))
    · exact SingleTimer_of_timers _ _ _ _ _ _ ht hp hpa ha

theorem SingleTimer_runSerial (E : Builtins) (events : List Event) :
    ∀ s s1 : State, SingleTimer s → runSerial E s events = some s1 → SingleTimer s1 := by
  induction events with
  | nil =>
    intro s s1 h hr
    simp only [runSerial, Option.some.injEq] at hr
    exact hr ▸ h
  | cons e es ih =>
    intro s s1 h hr
    simp only [runSerial] at hr
    cases hs : stepSerial E s e with
    | none => simp [hs] at hr
    | some s2 =>
      rw [hs] at hr
      exact ih s2 s1 (SingleTimer_stepSerial E s s2 e h hs) hr

theorem SingleTimer_initialState (page : State) (now : Nat) :
    SingleTimer (initialState page now) := by
  refine ⟨?_, ?_, Or.inl ?_⟩ <;> simp [initialState, addSafetyPoint]

/-- C4: the claimed invariant fails on the code.  From the loaded page with start and end
filled in, two clicks on "calculate" followed by the two replies, both `processing`, leave
two interval timers active, with handles 1 and 2, of which only the second is held in
`checkResultInterval`: the continuation of the first request starts a timer that nothing
cancels when the continuation of the second starts another. -/
theorem overlapping_calculations_two_timers :
    (run decimalBuiltins pickedState overlappingCalculations).map
        (fun s => (s.activeTimers, s.checkResultInterval)) = some ([1, 2], some 2) := by
  decide

theorem step_clickCalculate_of_valid (E : Builtins) (s : State) (h : validCoordinates E s) :
    ∃ s1, step E s Event.clickCalculate = some s1 ∧ validCoordinates E s1 ∧
      ∃ active, timers s1 =
        (active, s.checkResultInterval, s.timerCounter, s.pendingCalculate + 1, s.pendingPoll) := by
  refine ⟨calculateRoute E s, rfl, ?_⟩
  rw [calculateRoute_of_valid E s h]
  exact ⟨h, _, rfl⟩

theorem step_calculateReply_processing (E : Builtins) (taskId : String) (s : State)
    (hp : s.pendingCalculate ≠ 0) :
    ∃ s1, step E s (Event.calculateReply (processingReply taskId)) = some s1 ∧
      timers s1 =
        (s.activeTimers ++ [s.timerCounter + 1], some (s.timerCounter + 1), s.timerCounter + 1,
          s.pendingCalculate - 1, s.pendingPoll) := by
  refine ⟨calculateRouteReply E (processingReply taskId)
    { s with pendingCalculate := s.pendingCalculate - 1 }, by simp only [step, hp, if_false], ?_⟩
  simp [calculateRouteReply, calculateRouteResponse, processingReply, processingData,
    responseOk, setInterval, timers]

/-- The leak does not depend on the page or on the built-ins: from every state with numeric
start and end coordinates, two submissions followed by two `processing` replies leave the
two timers started by the two replies active, and only the second handle is held in
`checkResultInterval`. -/
theorem overlapping_calculations_leak (E : Builtins) (s : State) (a b : String)
    (h : validCoordinates E s) :
    ∃ active, (run E s
        [Event.clickCalculate, Event.clickCalculate,
         Event.calculateReply (processingReply a), Event.calculateReply (processingReply b)]).map
          (fun s1 => (s1.activeTimers, s1.checkResultInterval)) =
        some (active ++ [s.timerCounter + 1, s.timerCounter + 2], some (s.timerCounter + 2)) := by
  obtain ⟨s1, e1, hv1, a1, t1⟩ := step_clickCalculate_of_valid E s h
  obtain ⟨s2, e2, _, a2, t2⟩ := step_clickCalculate_of_valid E s1 hv1
  simp only [timers, Prod.mk.injEq] at t1 t2
  obtain ⟨s3, e3, t3⟩ := step_calculateReply_processing E a s2 (by omega)
  simp only [timers, Prod.mk.injEq] at t3
  obtain ⟨s4, e4, t4⟩ := step_calculateReply_processing E b s3 (by omega)
  simp only [timers, Prod.mk.injEq] at t4
  refine ⟨a2, ?_⟩
  simp only [run, e1, e2, e3, e4, Option.map_some', Option.some.injEq, Prod.mk.injEq]
  obtain ⟨t4a, t4v, _⟩ := t4
  obtain ⟨t3a, _, t3c, _⟩ := t3
  obtain ⟨t2a, _, t2c, _⟩ := t2
  obtain ⟨_, _, t1c, _⟩ := t1
  constructor
  · rw [t4a, t3a, t3c, t2a, t2c, t1c]; simp
  · rw [t4v, t3c, t2c, t1c]

/-- An instance of `overlapping_calculations_leak` on the loaded page. -/
theorem overlapping_calculations_leak_witness :
    validCoordinates decimalBuiltins pickedState ∧
      ∃ active, (run decimalBuiltins pickedState
        [Event.clickCalculate, Event.clickCalculate,
         Event.calculateReply (processingReply "a"),
         Event.calculateReply (processingReply "b")]).map
          (fun s1 => (s1.activeTimers, s1.checkResultInterval)) =
        some (active ++ [pickedState.timerCounter + 1, pickedState.timerCounter + 2],
          some (pickedState.timerCounter + 2)) :=
  ⟨⟨by decide, by decide, by decide, by decide⟩,
    overlapping_calculations_leak decimalBuiltins pickedState "a" "b"
      ⟨by decide, by decide, by decide, by decide⟩⟩

/-- When no calculation is submitted while the reply to an earlier one is outstanding, at
most one interval timer is active in every state reached, whatever the events and the
replies are, from a state that satisfies `SingleTimer` (as the loaded page does, with or
without coordinates filled in). -/
theorem serial_calculations_single_timer (E : Builtins) (s0 s : State) (events : List Event)
    (h0 : SingleTimer s0) (h : runSerial E s0 events = some s) :
    s.activeTimers.length ≤ 1 := by
  have hinv := SingleTimer_runSerial E events s0 s h0 h
  rcases hinv.2.2 with h | ⟨t, _, h, _⟩ <;> simp [h]

/-- An instance of `serial_calculations_single_timer`: submit, reply `processing`, tick,
poll reply 404, submit again. -/
theorem serial_calculations_single_timer_witness :
    SingleTimer pickedState ∧
      (runSerial decimalBuiltins pickedState
        [Event.clickCalculate, Event.calculateReply (processingReply "a"), Event.pollTick 1,
         Event.pollReply (FetchOutcome.response 404 (Except.error "")),
         Event.clickCalculate]).isSome = true ∧
      ∀ s, runSerial decimalBuiltins pickedState
        [Event.clickCalculate, Event.calculateReply (processingReply "a"), Event.pollTick 1,
         Event.pollReply (FetchOutcome.response 404 (Except.error "")),
         Event.clickCalculate] = some s → s.activeTimers.length ≤ 1 :=
  ⟨⟨by decide, by decide, Or.inl (by decide)⟩, by decide,
    fun s hs => serial_calculations_single_timer decimalBuiltins pickedState s _
      ⟨by decide, by decide, Or.inl (by decide)⟩ hs⟩

/-- C6: the claim fails on the code in two ways.  A direct `completed` reply never touches
the timers: after two submissions, a `processing` reply to the first and a `completed`
reply to the second, the timer started for the first is still active.  A `completed` poll
reply cancels only the timer held in `checkResultInterval`: after two submissions answered
`processing` twice, a `completed` poll reply leaves the first timer active. -/
theorem completed_reply_timer_still_active :
    (run decimalBuiltins pickedState
        [Event.clickCalculate, Event.clickCalculate,
         Event.calculateReply (processingReply "a"),
         Event.calculateReply (completedReply "b")]).map (fun s => s.activeTimers) =
        some [1] ∧
      (run decimalBuiltins pickedState
        (overlappingCalculations ++
          [Event.pollTick 2, Event.pollReply (completedReply "b")])).map
          (fun s => s.activeTimers) = some [1] := by
  constructor <;> decide

theorem calculateRouteReply_completed (E : Builtins) (status : Nat) (data : RouteData)
    (s : State) (hok : responseOk status = true) (hdata : data.status = some "completed") :
    calculateRouteReply E (FetchOutcome.response status (Except.ok data)) s =
      displayRouteResult E data { s with currentTaskId := data.task_id } := by
  simp [calculateRouteReply, calculateRouteResponse, hok, hdata]

theorem checkRouteResultReply_completed (E : Builtins) (status : Nat) (data : RouteData)
    (s : State) (hok : responseOk status = true) (hdata : data.status = some "completed") :
    checkRouteResultReply E (FetchOutcome.response status (Except.ok data)) s =
      displayRouteResult E data (clearInterval s.checkResultInterval s) := by
  simp [checkRouteResultReply, checkRouteResultResponse, hok, hdata]

theorem displayRouteResult_activeTimers (E : Builtins) (result : RouteData) (s : State) :
    (displayRouteResult E result s).activeTimers = s.activeTimers :=
  congrArg Prod.fst (timers_displayRouteResult E result s)

/-- In a state where at most one timer is active and it is the one held in
`checkResultInterval` (as in every state reached without overlapping submissions), no timer
is active after a `completed` reply has been handled, be it the direct reply or a poll
reply. -/
theorem completed_reply_serial (E : Builtins) (status : Nat) (data : RouteData) (s : State)
    (hinv : SingleTimer s) (hok : responseOk status = true)
    (hdata : data.status = some "completed") :
    (∀ s1, step E s (Event.calculateReply (FetchOutcome.response status (Except.ok data))) =
        some s1 → s1.activeTimers = []) ∧
      (∀ s1, step E s (Event.pollReply (FetchOutcome.response status (Except.ok data))) =
        some s1 → s1.activeTimers = []) := by
  obtain ⟨hp, hpa, ha⟩ := hinv
  constructor
  · intro s1 hs
    simp only [step] at hs
    split at hs
    · simp at hs
    · simp only [Option.some.injEq] at hs
      subst hs
      rw [calculateRouteReply_completed E status data _ hok hdata,
        displayRouteResult_activeTimers]
      exact hpa (by omega)
  · intro s1 hs
    simp only [step] at hs
    split at hs
    · simp at hs
    · simp only [Option.some.injEq] at hs
      subst hs
      rw [checkRouteResultReply_completed E status data _ hok hdata,
        displayRouteResult_activeTimers]
      exact clearInterval_single { s with pendingPoll := s.pendingPoll - 1 } ha

/-- An instance of `completed_reply_serial`: one submission answered `completed`. -/
theorem completed_reply_serial_witness :
    SingleTimer (calculateRoute decimalBuiltins pickedState) ∧
      (step decimalBuiltins (calculateRoute decimalBuiltins pickedState)
        (Event.calculateReply (completedReply "a"))).isSome = true ∧
      ∀ s1, step decimalBuiltins (calculateRoute decimalBuiltins pickedState)
          (Event.calculateReply
            (FetchOutcome.response 200
              (Except.ok { processingData with status := some "completed" }))) = some s1 →
        s1.activeTimers = [] :=
  ⟨⟨by decide, by decide, Or.inl (by decide)⟩, by decide,
    (completed_reply_serial decimalBuiltins 200
      { processingData with status := some "completed" }
      (calculateRoute decimalBuiltins pickedState)
      ⟨by decide, by decide, Or.inl (by decide)⟩ (by decide) rfl).1⟩

theorem resetCalculation_eq (now : Nat) (s : State) :
    resetCalculation now s =
      { s with
        resultsHidden := true, routeLayer := none, startMarker := none, endMarker := none,
        startLat := "", startLon := "", endLat := "", endLon := "", safetyMarkers := [],
        safetyPoints :=
          [{ id := now, safetyLat := "", safetyLon := "", safetyRadius := "200",
             safetyIndex := "1", safetyWeight := "1.0" }],
        checkResultInterval :=
          if timerTruthy s.checkResultInterval then none else s.checkResultInterval,
        activeTimers :=
          if timerTruthy s.checkResultInterval then
            (clearInterval s.checkResultInterval s).activeTimers
          else s.activeTimers } := by
  unfold resetCalculation
  cases hv : s.checkResultInterval with
  | none =>
    cases hr : s.routeLayer <;> cases hs : s.startMarker <;> cases he : s.endMarker <;>
      simp [addSafetyPoint, clearInterval, timerTruthy, hv]
  | some id =>
    cases hc : timerTruthy (some id) <;>
      cases hr : s.routeLayer <;> cases hs : s.startMarker <;> cases he : s.endMarker <;>
      simp [addSafetyPoint, clearInterval, hc, hv]

/-- C10: the claim fails on the code in one point.  After two submissions answered
`processing` twice, "new calculation" cancels the timer held in `checkResultInterval`
(handle 2) and resets the variable, but the timer with handle 1 stays active. -/
theorem resetCalculation_leaves_timer_active :
    (run decimalBuiltins pickedState
        (overlappingCalculations ++ [Event.clickNewCalculation 2000])).map
        (fun s => (s.activeTimers, s.checkResultInterval)) = some ([1], none) := by
  decide

/-- From every state, after `resetCalculation` there is no route layer, no start marker and
no end marker, the four coordinate controls are empty, `safetyMarkers` is empty, and the
form holds exactly one block, with empty latitude and longitude, radius 200, index 1 and
weight 1.0; the timer held in `checkResultInterval` is cancelled, so that no timer is active
when the state before satisfied `SingleTimer`. -/
theorem resetCalculation_effects (now : Nat) (s : State) :
    (resetCalculation now s).routeLayer = none ∧
      (resetCalculation now s).startMarker = none ∧
      (resetCalculation now s).endMarker = none ∧
      (resetCalculation now s).startLat = "" ∧
      (resetCalculation now s).startLon = "" ∧
      (resetCalculation now s).endLat = "" ∧
      (resetCalculation now s).endLon = "" ∧
      (resetCalculation now s).safetyMarkers = [] ∧
      (resetCalculation now s).safetyPoints =
        [{ id := now, safetyLat := "", safetyLon := "", safetyRadius := "200",
           safetyIndex := "1", safetyWeight := "1.0" }] ∧
      (resetCalculation now s).activeTimers =
        (if timerTruthy s.checkResultInterval then
          (clearInterval s.checkResultInterval s).activeTimers
        else s.activeTimers) ∧
      (SingleTimer s → (resetCalculation now s).activeTimers = []) := by
  rw [resetCalculation_eq]
  refine ⟨rfl, rfl, rfl, rfl, rfl, rfl, rfl, rfl, rfl, rfl, ?_⟩
  intro hinv
  show (if timerTruthy s.checkResultInterval then
      (clearInterval s.checkResultInterval s).activeTimers else s.activeTimers) = []
  split
  · exact clearInterval_single s hinv.2.2
  · rename_i hf
    exact timerTruthy_of_single s hinv.2.2 (by simpa using hf)

/-- An instance of `resetCalculation_effects` in a state with one active timer. -/
theorem resetCalculation_effects_witness :
    pollingState.activeTimers = [1] ∧ SingleTimer pollingState ∧
      (resetCalculation 2000 pollingState).activeTimers = [] :=
  ⟨by decide, ⟨by decide, by decide, Or.inr ⟨1, by decide, by decide, by decide⟩⟩,
    (resetCalculation_effects 2000 pollingState).2.2.2.2.2.2.2.2.2.2
      ⟨by decide, by decide, Or.inr ⟨1, by decide, by decide, by decide⟩⟩⟩

/-! ## Selection modes and the map click -/

theorem setSelectionMode_none (E : Builtins) (s : State) :
    setSelectionMode E none none s =
      { s with selectionMode := none, currentSafetyPointId := none, indicatorShown := false } :=
  rfl

theorem find?_first_with_id (id : Nat) (before after : List SafetyPointEl) (el : SafetyPointEl)
    (hel : el.id = id) (h : ∀ x ∈ before, x.id ≠ id) :
    (before ++ el :: after).find? (fun (x : SafetyPointEl) => x.id == id) = some el := by
  induction before with
  | nil => simp [hel]
  | cons x rest ih =>
    have hx : x.id ≠ id := h x (List.mem_cons_self _ _)
    simp [List.find?_cons, hx, ih (fun y hy => h y (List.mem_cons_of_mem _ hy))]

theorem find?_none_of_forall_ne (id : Nat) (rows : List SafetyPointEl)
    (h : ∀ x ∈ rows, x.id ≠ id) :
    rows.find? (fun (x : SafetyPointEl) => x.id == id) = none := by
  simp only [List.find?_eq_none, beq_iff_eq]
  exact fun x hx => h x hx

theorem find?_isSome_of_mem (rows : List SafetyPointEl) (el : SafetyPointEl) (h : el ∈ rows) :
    ∃ pointEl, rows.find? (fun (x : SafetyPointEl) => x.id == el.id) = some pointEl := by
  cases hf : rows.find? (fun (x : SafetyPointEl) => x.id == el.id) with
  | some pointEl => exact ⟨pointEl, rfl⟩
  | none =>
    rw [List.find?_eq_none] at hf
    exact absurd (by simp) (hf el h)

theorem setSafetyLatLon_append (id : Nat) (lat lng : String)
    (before after : List SafetyPointEl) (el : SafetyPointEl)
    (hel : el.id = id) (h : ∀ x ∈ before, x.id ≠ id) :
    setSafetyLatLon id lat lng (before ++ el :: after) =
      before ++ { el with safetyLat := lat, safetyLon := lng } :: after := by
  induction before with
  | nil => simp [setSafetyLatLon, hel]
  | cons x rest ih =>
    have hx : x.id ≠ id := h x (List.mem_cons_self _ _)
    have ih1 := ih (fun y hy => h y (List.mem_cons_of_mem _ hy))
    simp [setSafetyLatLon, hx, ih1]

theorem updateSafetyMarker_eq (id : Nat) (latlng : LatLng) (radius safetyIndex : JSNum)
    (s : State) :
    updateSafetyMarker id latlng radius safetyIndex s =
      { s with
        safetyMarkers := s.safetyMarkers.eraseP (fun m => m.id == id) ++
          [{ id := id
             marker := { latlng := latlng
                         icon := Icon.safetyIcon safetyIndex (safetyColors safetyIndex).1 }
             circle := { latlng := latlng, radius := radius
                         color := (safetyColors safetyIndex).1
                         fillColor := (safetyColors safetyIndex).2
                         level := some safetyIndex }
             radius := radius, safetyIndex := safetyIndex }] } := by
  have h := eraseIdx_findIdx? (fun m : SafetyMarker => m.id == id) s.safetyMarkers
  unfold updateSafetyMarker
  cases hf : s.safetyMarkers.findIdx? (fun m => m.id == id) <;>
    simp only [hf] at h ⊢ <;> simp [← h]

theorem mapClick_start (E : Builtins) (latlng : LatLng) (s : State)
    (h : s.selectionMode = some Mode.start) :
    mapClick E latlng s =
      { updateStartMarker latlng
          { s with startLat := E.toFixed latlng.lat 6, startLon := E.toFixed latlng.lng 6 } with
        selectionMode := none, currentSafetyPointId := none, indicatorShown := false } := by
  simp [mapClick, h, setSelectionMode_none]

theorem mapClick_finish (E : Builtins) (latlng : LatLng) (s : State)
    (h : s.selectionMode = some Mode.finish) :
    mapClick E latlng s =
      { updateEndMarker latlng
          { s with endLat := E.toFixed latlng.lat 6, endLon := E.toFixed latlng.lng 6 } with
        selectionMode := none, currentSafetyPointId := none, indicatorShown := false } := by
  simp [mapClick, h, setSelectionMode_none]

theorem mapClick_safety_no_current (E : Builtins) (latlng : LatLng) (s : State)
    (h : s.selectionMode = some Mode.safety) (hc : s.currentSafetyPointId = none) :
    mapClick E latlng s =
      { s with selectionMode := none, currentSafetyPointId := none, indicatorShown := false } := by
  simp [mapClick, h, hc, setSelectionMode_none]

theorem mapClick_safety_gone (E : Builtins) (latlng : LatLng) (s : State)
    (current : CurrentSafetyPoint) (h : s.selectionMode = some Mode.safety)
    (hc : s.currentSafetyPointId = some current)
    (hrows : ∀ x ∈ s.safetyPoints, x.id ≠ current.id) :
    mapClick E latlng s =
      { s with selectionMode := none, currentSafetyPointId := none, indicatorShown := false } := by
  have hfind := find?_none_of_forall_ne current.id s.safetyPoints hrows
  simp only [mapClick, h, hc, hfind, setSelectionMode_none]

theorem mapClick_safety_target (E : Builtins) (latlng : LatLng) (s : State)
    (current : CurrentSafetyPoint) (before after : List SafetyPointEl) (el : SafetyPointEl)
    (h : s.selectionMode = some Mode.safety) (hc : s.currentSafetyPointId = some current)
    (hrows : s.safetyPoints = before ++ el :: after) (hel : el.id = current.id)
    (hbefore : ∀ x ∈ before, x.id ≠ current.id) :
    mapClick E latlng s =
      { s with
        safetyPoints := before ++
          { el with safetyLat := E.toFixed latlng.lat 6
                    safetyLon := E.toFixed latlng.lng 6 } :: after
        safetyMarkers :=
          s.safetyMarkers.eraseP (fun m => m.id == current.id) ++
            [placedEntry E current el latlng]
        selectionMode := none, currentSafetyPointId := none, indicatorShown := false } := by
  have hfind := find?_first_with_id current.id before after el hel hbefore
  rw [← hrows] at hfind
  simp only [mapClick, h, hc, hfind, setSelectionMode_none, updateSafetyMarker_eq, placedEntry]
  rw [hrows, setSafetyLatLon_append _ _ _ _ _ _ hel hbefore]

theorem toFixedDecimal_clicked_lat : toFixedDecimal (1905 / 100) 6 = "19.050000" := by
  have h : Int.floor (|(1905 / 100 : ℚ)| * (10 : ℚ) ^ 6 + 1 / 2) = 19050000 := by
    rw [Int.floor_eq_iff]
    norm_num [abs_of_pos]
  have hneg : ¬ ((1905 / 100 : ℚ) < 0) := by norm_num
  simp only [toFixedDecimal, h, hneg, if_false]
  decide

theorem toFixedDecimal_clicked_lng : toFixedDecimal (-9905 / 100) 6 = "-99.050000" := by
  have h : Int.floor (|(-9905 / 100 : ℚ)| * (10 : ℚ) ^ 6 + 1 / 2) = 99050000 := by
    rw [Int.floor_eq_iff]
    norm_num [abs_of_neg]
  have hneg : (-9905 / 100 : ℚ) < 0 := by norm_num
  simp only [toFixedDecimal, h, hneg, if_true]
  decide

theorem selectSafetyPointClick_with_blocks (E : Builtins) (s : State)
    (h : s.safetyPoints ≠ []) :
    selectSafetyPointClick E s =
      { s with selectionMode := some Mode.safety, currentSafetyPointId := none
               indicatorText := "Seleccionando ubicación de punto de seguridad"
               indicatorShown := true } := by
  have hlen : ¬ s.safetyPoints.length = 0 := by
    simpa [List.length_eq_zero] using h
  simp only [selectSafetyPointClick, hlen, if_false]
  rfl

/-- What the selection buttons and a map click do, for every state and every clicked
position.  The set-start button, the set-end button and the "select on map" button of a
block of the form make the start, end and safety mode active, the last with that block's id
as target.  A map click while no mode is active changes nothing.  In start mode (and
likewise in end mode) it writes the clicked latitude and longitude, formatted with six
decimals, into the start (end) controls, puts the start (end) marker at the clicked position,
and leaves no mode active.  In safety mode with a target whose block is still in the form it
writes the formatted coordinates into the first block with the target id, replaces the entry
of that id in `safetyMarkers` by one whose marker and circle are at the clicked position, and
leaves no mode active; when no block has the target id any more, or when the mode has no
target at all, it only leaves no mode active.  In each case nothing else changes.  A map
click in any active mode leaves no mode active.  The button `#select-safety-point`, pressed
while the form has a block, makes safety mode active without a target, so the map click that
follows leaves the blocks and the entries of `safetyMarkers` as they were. -/
theorem mapClick_in_selection_mode (E : Builtins) (latlng : LatLng) (s : State) :
    ((setSelectionMode E (some Mode.start) none s).selectionMode = some Mode.start ∧
      (setSelectionMode E (some Mode.finish) none s).selectionMode = some Mode.finish ∧
      ∀ el ∈ s.safetyPoints,
        (setSelectionMode E (some Mode.safety) (some el.id) s).selectionMode =
            some Mode.safety ∧
          (∃ safetyIndex,
            (setSelectionMode E (some Mode.safety) (some el.id) s).currentSafetyPointId =
              some { id := el.id, safetyIndex := safetyIndex }) ∧
          (setSelectionMode E (some Mode.safety) (some el.id) s).safetyPoints =
            s.safetyPoints) ∧
      (s.selectionMode = none → mapClick E latlng s = s) ∧
      (s.selectionMode = some Mode.start →
        (mapClick E latlng s).startMarker.map (fun m => m.latlng) = some latlng ∧
        mapClick E latlng s =
          { s with
            startLat := E.toFixed latlng.lat 6, startLon := E.toFixed latlng.lng 6
            startMarker := (mapClick E latlng s).startMarker
            selectionMode := none, currentSafetyPointId := none, indicatorShown := false }) ∧
      (s.selectionMode = some Mode.finish →
        (mapClick E latlng s).endMarker.map (fun m => m.latlng) = some latlng ∧
        mapClick E latlng s =
          { s with
            endLat := E.toFixed latlng.lat 6, endLon := E.toFixed latlng.lng 6
            endMarker := (mapClick E latlng s).endMarker
            selectionMode := none, currentSafetyPointId := none, indicatorShown := false }) ∧
      (s.selectionMode = some Mode.safety →
        ∀ current before el after, s.currentSafetyPointId = some current →
          s.safetyPoints = before ++ el :: after → el.id = current.id →
          (∀ x ∈ before, x.id ≠ current.id) →
          ∃ entry : SafetyMarker,
            entry.id = current.id ∧ entry.marker.latlng = latlng ∧
            entry.circle.latlng = latlng ∧
            mapClick E latlng s =
              { s with
                safetyPoints := before ++
                  { el with safetyLat := E.toFixed latlng.lat 6
                            safetyLon := E.toFixed latlng.lng 6 } :: after
                safetyMarkers :=
                  s.safetyMarkers.eraseP (fun m => m.id == current.id) ++ [entry]
                selectionMode := none, currentSafetyPointId := none
                indicatorShown := false }) ∧
      (s.selectionMode = some Mode.safety →
        ∀ current, s.currentSafetyPointId = some current →
          (∀ x ∈ s.safetyPoints, x.id ≠ current.id) →
          mapClick E latlng s =
            { s with selectionMode := none, currentSafetyPointId := none
                     indicatorShown := false }) ∧
      (s.selectionMode = some Mode.safety → s.currentSafetyPointId = none →
        mapClick E latlng s =
          { s with selectionMode := none, currentSafetyPointId := none
                   indicatorShown := false }) ∧
      (∀ mode, s.selectionMode = some mode → (mapClick E latlng s).selectionMode = none) ∧
      (s.safetyPoints ≠ [] →
        (selectSafetyPointClick E s).selectionMode = some Mode.safety ∧
        (selectSafetyPointClick E s).currentSafetyPointId = none ∧
        mapClick E latlng (selectSafetyPointClick E s) =
          { s with
            indicatorText := "Seleccionando ubicación de punto de seguridad"
            selectionMode := none, currentSafetyPointId := none
            indicatorShown := false }) := by
  refine ⟨⟨rfl, rfl, ?_⟩, ?_, ?_, ?_, ?_, ?_, ?_, ?_, ?_⟩
  · intro el hel
    obtain ⟨pointEl, hf⟩ := find?_isSome_of_mem s.safetyPoints el hel
    refine ⟨?_, ⟨(E.parseInt pointEl.safetyIndex).orElse (JSNum.fin 1), ?_⟩, ?_⟩ <;>
      simp [setSelectionMode, hf]
  · intro h
    simp [mapClick, h]
  · intro h
    rw [mapClick_start E latlng s h]
    cases hm : s.startMarker <;> simp [updateStartMarker, hm]
  · intro h
    rw [mapClick_finish E latlng s h]
    cases hm : s.endMarker <;> simp [updateEndMarker, hm]
  · intro h current before el after hc hrows hel hbefore
    exact ⟨placedEntry E current el latlng, rfl, rfl, rfl,
      mapClick_safety_target E latlng s current before after el h hc hrows hel hbefore⟩
  · intro h current hc hrows
    exact mapClick_safety_gone E latlng s current h hc hrows
  · intro h hc
    exact mapClick_safety_no_current E latlng s h hc
  · intro mode h
    simp only [mapClick, h]
    rfl
  · intro h
    rw [selectSafetyPointClick_with_blocks E s h]
    refine ⟨rfl, rfl, ?_⟩
    rw [mapClick_safety_no_current E latlng _ rfl rfl]

/-- An instance of `mapClick_in_selection_mode`: on the loaded page, the set-start button
followed by a map click, and the "select on map" button of the only block followed by a map
click. -/
theorem mapClick_in_selection_mode_witness :
    ((setSelectionMode decimalBuiltins (some Mode.start) none pickedState).selectionMode =
        some Mode.start ∧
      (mapClick decimalBuiltins (LatLng.mk (1905 / 100) (-9905 / 100))
        (setSelectionMode decimalBuiltins (some Mode.start) none pickedState)).startMarker.map
          (fun m => m.latlng) = some (LatLng.mk (1905 / 100) (-9905 / 100))) ∧
      ((setSelectionMode decimalBuiltins (some Mode.safety) (some 1000)
          pickedState).selectionMode = some Mode.safety ∧
        ∃ entry : SafetyMarker,
          entry.id = 1000 ∧ entry.marker.latlng = LatLng.mk (1905 / 100) (-9905 / 100) ∧
          (mapClick decimalBuiltins (LatLng.mk (1905 / 100) (-9905 / 100))
            (setSelectionMode decimalBuiltins (some Mode.safety) (some 1000)
              pickedState)).safetyMarkers = [entry]) :=
  ⟨⟨rfl,
      ((mapClick_in_selection_mode decimalBuiltins (LatLng.mk (1905 / 100) (-9905 / 100))
        (setSelectionMode decimalBuiltins (some Mode.start) none pickedState)).2.2.1 rfl).1⟩,
    rfl,
    by
      obtain ⟨entry, hid, hpos, _, he⟩ :=
        (mapClick_in_selection_mode decimalBuiltins (LatLng.mk (1905 / 100) (-9905 / 100))
          (setSelectionMode decimalBuiltins (some Mode.safety) (some 1000)
            pickedState)).2.2.2.2.1 rfl
          { id := 1000, safetyIndex := (decimalBuiltins.parseInt "1").orElse (JSNum.fin 1) }
          [] { id := 1000, safetyLat := "", safetyLon := "", safetyRadius := "200",
               safetyIndex := "1", safetyWeight := "1.0" } [] rfl rfl rfl (by simp)
      exact ⟨entry, hid, hpos, by rw [he]; rfl⟩⟩

/-- A block removed while it is the target: after the "select on map" button of the only
block and then its remove button, safety mode is still active, and the map click that
follows creates no marker and leaves no mode active. -/
theorem mapClick_after_row_removed :
    (formRun decimalBuiltins pickedState
        [FormEvent.clickSelectOnMap 0, FormEvent.clickRemove 0]).map
        (fun s => s.selectionMode) = some (some Mode.safety) ∧
      (formRun decimalBuiltins pickedState
        [FormEvent.clickSelectOnMap 0, FormEvent.clickRemove 0,
         FormEvent.clickMap (LatLng.mk (1905 / 100) (-9905 / 100))]).map
        (fun s => (s.safetyPoints, s.safetyMarkers.length, s.selectionMode)) =
        some ([], 0, none) := by
  decide

/-- C11: the claim fails on the code when safety mode is entered with the global button
`#select-safety-point`.  On the page `pickedState`, whose form has one block (id 1000, no
coordinates, no marker), that button makes safety mode active and shows the indicator, with
no error shown and no target block; the map click at (19.05, -99.05) that follows leaves the
block without coordinates and creates no marker, and only leaves no mode active.  From the
same page, the "select on map" button of the block followed by the same map click writes
`19.050000` and `-99.050000` into the block and creates its marker at the clicked
position. -/
theorem selectSafetyPoint_click_writes_nothing :
    pickedState.safetyPoints.map (fun el => (el.id, el.safetyLat, el.safetyLon)) =
        [(1000, "", "")] ∧
      pickedState.safetyMarkers.map (fun m => m.id) = [] ∧
      (formRun decimalBuiltins pickedState [FormEvent.clickSelectSafetyPoint]).map
          (fun s => (s.selectionMode, s.currentSafetyPointId.isSome, s.indicatorShown,
            s.indicatorText, s.errorHidden)) =
        some (some Mode.safety, false, true,
          "Seleccionando ubicación de punto de seguridad", true) ∧
      (formRun decimalBuiltins pickedState
          [FormEvent.clickSelectSafetyPoint,
           FormEvent.clickMap (LatLng.mk (1905 / 100) (-9905 / 100))]).map
          (fun s => (s.safetyPoints.map (fun el => (el.id, el.safetyLat, el.safetyLon)),
            s.safetyMarkers.map (fun m => m.id), s.selectionMode)) =
        some ([(1000, "", "")], [], none) ∧
      (formRun decimalBuiltins pickedState
          [FormEvent.clickSelectOnMap 0,
           FormEvent.clickMap (LatLng.mk (1905 / 100) (-9905 / 100))]).map
          (fun s => (s.safetyPoints.map (fun el => (el.id, el.safetyLat, el.safetyLon)),
            s.safetyMarkers.map (fun m => (m.id, m.marker.latlng)), s.selectionMode)) =
        some ([(1000, "19.050000", "-99.050000")],
          [(1000, LatLng.mk (1905 / 100) (-9905 / 100))], none) := by
  refine ⟨by decide, by decide, by decide, by decide, ?_⟩
  have hrun : formRun decimalBuiltins pickedState
      [FormEvent.clickSelectOnMap 0,
       FormEvent.clickMap (LatLng.mk (1905 / 100) (-9905 / 100))] =
      some (mapClick decimalBuiltins (LatLng.mk (1905 / 100) (-9905 / 100))
        (setSelectionMode decimalBuiltins (some Mode.safety) (some 1000) pickedState)) := rfl
  rw [hrun, mapClick_safety_target decimalBuiltins (LatLng.mk (1905 / 100) (-9905 / 100))
    (setSelectionMode decimalBuiltins (some Mode.safety) (some 1000) pickedState)
    { id := 1000, safetyIndex := (decimalBuiltins.parseInt "1").orElse (JSNum.fin 1) }
    [] [] { id := 1000, safetyLat := "", safetyLon := "", safetyRadius := "200",
            safetyIndex := "1", safetyWeight := "1.0" } rfl rfl rfl rfl (by simp)]
  have hlat : decimalBuiltins.toFixed (1905 / 100) 6 = "19.050000" :=
    toFixedDecimal_clicked_lat
  have hlng : decimalBuiltins.toFixed (-9905 / 100) 6 = "-99.050000" :=
    toFixedDecimal_clicked_lng
  simp only [Option.map_some', List.nil_append, List.map_cons, List.map_nil, hlat, hlng,
    placedEntry]
  rfl

/-! ## Failing polls -/

theorem checkRouteResultResponse_of_fails (o : FetchOutcome) (h : pollFails o) :
    ∃ message, checkRouteResultResponse o = Except.error message := by
  cases o with
  | rejected message => exact ⟨message, rfl⟩
  | response status json =>
    cases json with
    | error message =>
      simp only [pollFails] at h
      by_cases hok : responseOk status = true
      · exact ⟨message, by simp [checkRouteResultResponse, hok]⟩
      · have h404 : status ≠ 404 := by
          rcases h with h | h
          · exact absurd h hok
          · exact h
        exact ⟨"Error en la respuesta del servidor",
          by simp [checkRouteResultResponse, hok, h404]⟩
    | ok data =>
      simp only [pollFails] at h
      exact ⟨"Error en la respuesta del servidor",
        by simp [checkRouteResultResponse, h.1, h.2]⟩

/-- C12: in a state whose polling timer, the interval with the handle `t` held in
`checkResultInterval`, is active: when the poll fails (the request is rejected, the status
is neither OK nor 404, or decoding the body throws), the continuation of `checkRouteResult`
cancels that timer, hides the loading indicator and shows
`Error al verificar el estado de la ruta`; when the reply is OK with a non-empty `error`
member and a status other than `completed`, it cancels that timer and shows the `error`
member verbatim.  In both cases nothing else changes, `t` is no longer active, the other
timers are untouched, and no timer is active if `t` was the only one. -/
theorem checkRouteResultReply_failure (E : Builtins) (s : State) (t : Nat)
    (hvar : s.checkResultInterval = some t) (hactive : t ∈ s.activeTimers) :
    (∀ o, pollFails o →
        checkRouteResultReply E o s =
          { s with activeTimers := s.activeTimers.filter (fun x => x != t)
                   loadingHidden := true, errorHidden := false
                   errorText := "Error al verificar el estado de la ruta" }) ∧
      (∀ status data message, responseOk status = true → data.error = some message →
        message ≠ "" → data.status ≠ some "completed" →
        checkRouteResultReply E (FetchOutcome.response status (Except.ok data)) s =
          { s with activeTimers := s.activeTimers.filter (fun x => x != t)
                   loadingHidden := true, errorHidden := false, errorText := message }) ∧
      t ∉ s.activeTimers.filter (fun x => x != t) ∧
      (s.activeTimers.filter (fun x => x != t)).length < s.activeTimers.length ∧
      (∀ x ∈ s.activeTimers, x ≠ t → x ∈ s.activeTimers.filter (fun x => x != t)) ∧
      (s.activeTimers = [t] → s.activeTimers.filter (fun x => x != t) = []) := by
  refine ⟨?_, ?_, ?_, ?_, ?_, ?_⟩
  · intro o ho
    obtain ⟨message, hm⟩ := checkRouteResultResponse_of_fails o ho
    simp [checkRouteResultReply, hm, showError, clearInterval, hvar]
  · intro status data message hok herr hne hstatus
    simp [checkRouteResultReply, checkRouteResultResponse, hok, hstatus, herr, strTruthy, hne,
      textOr, showError, clearInterval, hvar]
  · simp
  · exact List.length_filter_lt_length_iff_exists.mpr ⟨t, hactive, by simp⟩
  · intro x hx hne
    simp [hx, hne]
  · intro h
    simp [h]

/-- Witness of C12: one submission answered `processing`, then a poll answered with status
500, and a poll answered with an `error` member. -/
theorem checkRouteResultReply_failure_witness :
    pollingState.checkResultInterval = some 1 ∧ pollingState.activeTimers = [1] ∧
      checkRouteResultReply decimalBuiltins
          (FetchOutcome.response 500 (Except.ok processingData)) pollingState =
        { pollingState with
          activeTimers := pollingState.activeTimers.filter (fun x => x != 1)
          loadingHidden := true, errorHidden := false
          errorText := "Error al verificar el estado de la ruta" } ∧
      checkRouteResultReply decimalBuiltins
          (FetchOutcome.response 200
            (Except.ok { processingData with status := some "failed", error := some "sin ruta" }))
          pollingState =
        { pollingState with
          activeTimers := pollingState.activeTimers.filter (fun x => x != 1)
          loadingHidden := true, errorHidden := false, errorText := "sin ruta" } :=
  ⟨by decide, by decide,
    (checkRouteResultReply_failure decimalBuiltins pollingState 1 (by decide) (by decide)).1
      (FetchOutcome.response 500 (Except.ok processingData)) ⟨by decide, by decide⟩,
    (checkRouteResultReply_failure decimalBuiltins pollingState 1 (by decide) (by decide)).2.1
      200 { processingData with status := some "failed", error := some "sin ruta" } "sin ruta"
      (by decide) rfl (by decide) (by decide)⟩

/-! ## The radius control -/

theorem parseDecimal_zero : parseDecimal "0" = JSNum.fin 0 := by
  simp [parseDecimal, digitsValue]

theorem replaceCircle_of_forall_ne (id : Nat) (radius : JSNum) (l : List SafetyMarker)
    (h : ∀ m ∈ l, m.id ≠ id) : replaceCircle id radius l = l := by
  induction l with
  | nil => rfl
  | cons m rest ih =>
    have hm : m.id ≠ id := h m (List.mem_cons_self _ _)
    simp only [replaceCircle, beq_iff_eq, hm, if_false]
    rw [ih (fun x hx => h x (List.mem_cons_of_mem _ hx))]

theorem replaceCircle_append (id : Nat) (radius : JSNum) (before after : List SafetyMarker)
    (m : SafetyMarker) (hm : m.id = id) (h : ∀ x ∈ before, x.id ≠ id) :
    replaceCircle id radius (before ++ m :: after) =
      before ++
        { m with circle := { latlng := m.marker.latlng, radius := radius, color := "#e74c3c",
                             fillColor := "#f8d7da", level := none } } :: after := by
  induction before with
  | nil => simp [replaceCircle, hm]
  | cons x rest ih =>
    have hx : x.id ≠ id := h x (List.mem_cons_self _ _)
    have ih1 := ih (fun y hy => h y (List.mem_cons_of_mem _ hy))
    simp [replaceCircle, hx, ih1]

/-- What the `change` listener of a radius control does, for every value: without an entry
for the block nothing changes; otherwise the circle of the first entry with the block's id is
replaced by a circle centred at the entry's marker, the marker and every other entry staying
as they are.  The radius of the new circle is the parsed value when that is a number other
than zero, and 200 when the value does not parse to a number or parses to zero. -/
theorem safetyRadiusChange_effect (E : Builtins) (pointId : Nat) (value : String) (s : State) :
    ((∀ m ∈ s.safetyMarkers, m.id ≠ pointId) → safetyRadiusChange E pointId value s = s) ∧
      (∀ before m after, s.safetyMarkers = before ++ m :: after → m.id = pointId →
        (∀ x ∈ before, x.id ≠ pointId) →
        safetyRadiusChange E pointId value s =
          { s with
            safetyMarkers := before ++
              { m with
                circle := { latlng := m.marker.latlng
                            radius := (E.parseFloat value).orElse (JSNum.fin 200)
                            color := "#e74c3c", fillColor := "#f8d7da", level := none } } ::
              after }) ∧
      ((E.parseFloat value).truthy = true →
        (E.parseFloat value).orElse (JSNum.fin 200) = E.parseFloat value) ∧
      ((E.parseFloat value).isNaN = true →
        (E.parseFloat value).orElse (JSNum.fin 200) = JSNum.fin 200) ∧
      (E.parseFloat value = JSNum.fin 0 →
        (E.parseFloat value).orElse (JSNum.fin 200) = JSNum.fin 200) := by
  refine ⟨?_, ?_, ?_, ?_, ?_⟩
  · intro h
    simp only [safetyRadiusChange, replaceCircle_of_forall_ne _ _ _ h]
  · intro before m after hs hm hbefore
    simp only [safetyRadiusChange, hs, replaceCircle_append _ _ _ _ _ hm hbefore]
  · intro h; simp [JSNum.orElse, h]
  · intro h
    cases hv : E.parseFloat value <;> simp_all [JSNum.orElse, JSNum.truthy, JSNum.isNaN]
  · intro h; simp [h, JSNum.orElse, JSNum.truthy]

/-- C13: the claim fails on the code at the radius 0.  The text `0` parses to the number 0,
yet after it is entered in the radius control of the first block of `markedState`, whose
circle had radius 350, the new circle has radius 200, not 0; the circle of the other entry
is as before.  (The same control value is submitted by `calculateRoute` as radius 0.) -/
theorem zero_radius_drawn_as_default :
    decimalBuiltins.parseFloat "0" = JSNum.fin 0 ∧
      markedState.safetyMarkers.map (fun m => (m.id, m.circle.radius)) =
        [(1000, JSNum.fin 350), (1002, JSNum.fin 200)] ∧
      (safetyRadiusChange decimalBuiltins 1000 "0" markedState).safetyMarkers.map
          (fun m => (m.id, m.circle.radius)) =
        [(1000, JSNum.fin 200), (1002, JSNum.fin 200)] ∧
      (pushedSafetyPoint decimalBuiltins
        { id := 1000, safetyLat := "19.05", safetyLon := "-99.05", safetyRadius := "0",
          safetyIndex := "4", safetyWeight := "0.5" }).radius = JSNum.fin 0 := by
  have hz : parseDecimal "0" = JSNum.fin 0 := parseDecimal_zero
  refine ⟨hz, by decide, ?_, ?_⟩
  · have hm : markedState.safetyMarkers =
        [] ++ (markedState.safetyMarkers.head (by decide)) :: markedState.safetyMarkers.tail :=
      rfl
    have hid : (markedState.safetyMarkers.head (by decide)).id = 1000 := by decide
    rw [(safetyRadiusChange_effect decimalBuiltins 1000 "0" markedState).2.1 _ _ _ hm hid
      (by simp)]
    have hr : (decimalBuiltins.parseFloat "0").orElse (JSNum.fin 200) = JSNum.fin 200 := by
      simp [decimalBuiltins, hz, JSNum.orElse, JSNum.truthy]
    simp only [hr, List.nil_append, List.map_cons]
    decide
  · simp [pushedSafetyPoint, decimalBuiltins, hz, JSNum.isNaN]

/-! ## The duplicated definitions -/

/-- C14: the two definitions of `checkRouteResult` (the part up to `fetch` and the
continuation on the reply) and the two definitions of `displayRouteResult` coincide: for
every input and every state they give the same state, hence the same requests, timers and
page. -/
theorem duplicate_definitions_equivalent :
    (∀ (taskId : Option String) (s : State),
        checkRouteResultFirst taskId s = checkRouteResult taskId s) ∧
      (∀ (E : Builtins) (o : FetchOutcome) (s : State),
        checkRouteResultReplyFirst E o s = checkRouteResultReply E o s) ∧
      (∀ (E : Builtins) (result : RouteData) (s : State),
        displayRouteResultFirst E result s = displayRouteResult E result s) := by
  have hrender : ∀ (E : Builtins) (result : RouteData) (summary : Summary)
      (path : List (ℚ × ℚ)) (segments : List Segment) (s : State),
      renderRouteResultFirst E result summary path segments s =
        renderRouteResult E result summary path segments s := fun _ _ _ _ _ _ => rfl
  have hdisplay : ∀ (E : Builtins) (result : RouteData) (s : State),
      displayRouteResultFirst E result s = displayRouteResult E result s := by
    intro E result s
    unfold displayRouteResultFirst displayRouteResult
    simp only [hrender]
  refine ⟨fun _ _ => rfl, ?_, hdisplay⟩
  intro E o s
  have hresponse : checkRouteResultResponseFirst o = checkRouteResultResponse o := rfl
  unfold checkRouteResultReplyFirst checkRouteResultReply
  simp only [hresponse, hdisplay]

/-! ## Ids of the blocks -/

/-- C15: the claim fails on the code when the clock reading repeats.  The form of
`pickedState` holds one block, with id 1000; `addSafetyPoint` at the clock reading 1000
appends a block with the same id, so the ids are no longer pairwise distinct. -/
theorem addSafetyPoint_same_clock_reading :
    (pickedState.safetyPoints.map (fun el => el.id)) = [1000] ∧
      ((addSafetyPoint 1000 pickedState).safetyPoints.map (fun el => el.id)) = [1000, 1000] ∧
      ¬ ((addSafetyPoint 1000 pickedState).safetyPoints.map (fun el => el.id)).Nodup := by
  decide

/-- When the clock reading differs from the id of every block of the form, `addSafetyPoint`
appends exactly one block, whose id is the clock reading and differs from every id already
there, keeps pairwise distinct ids pairwise distinct, and changes nothing else. -/
theorem addSafetyPoint_fresh (now : Nat) (s : State)
    (hfresh : ∀ el ∈ s.safetyPoints, el.id ≠ now) :
    (∃ el, (addSafetyPoint now s).safetyPoints = s.safetyPoints ++ [el] ∧ el.id = now ∧
        ∀ x ∈ s.safetyPoints, x.id ≠ el.id) ∧
      ((s.safetyPoints.map (fun el => el.id)).Nodup →
        ((addSafetyPoint now s).safetyPoints.map (fun el => el.id)).Nodup) ∧
      addSafetyPoint now s = { s with safetyPoints := (addSafetyPoint now s).safetyPoints } := by
  refine ⟨⟨_, rfl, rfl, hfresh⟩, ?_, rfl⟩
  intro hn
  simp only [addSafetyPoint, List.map_append, List.map_cons, List.map_nil]
  rw [List.nodup_append]
  refine ⟨hn, List.nodup_singleton _, ?_⟩
  intro a ha hb
  simp only [List.mem_singleton] at hb
  obtain ⟨el, hel, rfl⟩ := List.mem_map.mp ha
  exact hfresh el hel hb

/-- An instance of `addSafetyPoint_fresh`: a second block one millisecond later. -/
theorem addSafetyPoint_fresh_witness :
    (addSafetyPoint 1001 pickedState).safetyPoints.map (fun el => el.id) = [1000, 1001] ∧
      ((addSafetyPoint 1001 pickedState).safetyPoints.map (fun el => el.id)).Nodup :=
  ⟨by decide,
    (addSafetyPoint_fresh 1001 pickedState (by decide)).2.1 (by decide)⟩

/-! ## Submitted values of a safety point -/

/-- C16: the claim fails on the code at the weight 0.  The weight control of the block of
`zeroWeightState` holds `0`, which parses to the number 0, and the entry that
`calculateRoute` puts in the request has weight 1. -/
theorem zero_weight_submitted_as_one :
    decimalBuiltins.parseFloat "0" = JSNum.fin 0 ∧
      (requestDataOf decimalBuiltins zeroWeightState).safety_points.map (fun p => p.weight) =
        [JSNum.fin 1] ∧
      (calculateRoute decimalBuiltins zeroWeightState).sent =
        [Request.calculateRoute (requestDataOf decimalBuiltins zeroWeightState)] := by
  have hz : parseDecimal "0" = JSNum.fin 0 := parseDecimal_zero
  refine ⟨hz, ?_, ?_⟩
  · have hn : numericCoordinates decimalBuiltins
        { id := 1000, safetyLat := "19.05", safetyLon := "-99.05", safetyRadius := "350",
          safetyIndex := "4", safetyWeight := "0" } = true := by decide
    have hw : (pushedSafetyPoint decimalBuiltins
        { id := 1000, safetyLat := "19.05", safetyLon := "-99.05", safetyRadius := "350",
          safetyIndex := "4", safetyWeight := "0" }).weight = JSNum.fin 1 := by
      simp [pushedSafetyPoint, decimalBuiltins, hz, JSNum.orElse, JSNum.truthy, JSNum.isNaN]
    simp only [requestDataOf, zeroWeightState, List.foldl_cons, List.foldl_nil,
      collectSafetyPoint_eq, hn, if_true, List.nil_append, List.map_cons, List.map_nil, hw]
  · rw [calculateRoute_of_valid decimalBuiltins zeroWeightState
      ⟨by decide, by decide, by decide, by decide⟩]
    rfl

/-- With numeric start and end coordinates, the entry submitted for a block with numeric
coordinates carries the parsed latitude and longitude, the parsed radius and index when
these are numbers, and the parsed weight when it is a number other than zero; a weight that
parses to zero is submitted as 1. -/
theorem calculateRoute_safety_point_values (E : Builtins) (s : State)
    (h : validCoordinates E s) :
    ∃ body : RequestData,
      (calculateRoute E s).sent = s.sent ++ [Request.calculateRoute body] ∧
      List.Forall₂
        (fun el p =>
          p.lat = E.parseFloat el.safetyLat ∧ p.lon = E.parseFloat el.safetyLon ∧
          ((E.parseFloat el.safetyRadius).isNaN = false →
            p.radius = E.parseFloat el.safetyRadius) ∧
          ((E.parseInt el.safetyIndex).isNaN = false →
            p.safety_index = E.parseInt el.safetyIndex) ∧
          ((E.parseFloat el.safetyWeight).truthy = true →
            p.weight = E.parseFloat el.safetyWeight) ∧
          (E.parseFloat el.safetyWeight = JSNum.fin 0 → p.weight = JSNum.fin 1))
        (s.safetyPoints.filter
          (fun el => !(E.parseFloat el.safetyLat).isNaN && !(E.parseFloat el.safetyLon).isNaN))
        body.safety_points := by
  obtain ⟨body, hsent, hpoints⟩ := calculateRoute_sent E s h
  refine ⟨body, hsent, ?_⟩
  rw [hpoints, List.forall₂_map_right_iff]
  refine List.forall₂_same.mpr (fun el _ => ⟨rfl, rfl, ?_, ?_, ?_, ?_⟩)
  · intro hr; simp [pushedSafetyPoint, hr]
  · intro hi; simp [pushedSafetyPoint, hi]
  · intro hw
    have hnan : (E.parseFloat el.safetyWeight).isNaN = false := by
      cases hv : E.parseFloat el.safetyWeight <;> simp_all [JSNum.truthy, JSNum.isNaN]
    simp [pushedSafetyPoint, JSNum.orElse, hw, hnan]
  · intro hw
    simp [pushedSafetyPoint, JSNum.orElse, JSNum.truthy, JSNum.isNaN, hw]

/-- An instance of `calculateRoute_safety_point_values` on a form with three blocks. -/
theorem calculateRoute_safety_point_values_witness :
    validCoordinates decimalBuiltins threePointsState ∧
      ∃ body : RequestData,
        (calculateRoute decimalBuiltins threePointsState).sent =
          threePointsState.sent ++ [Request.calculateRoute body] ∧
        body.safety_points.length = 2 :=
  ⟨⟨by decide, by decide, by decide, by decide⟩,
    by
      obtain ⟨body, hsent, hall⟩ :=
        calculateRoute_safety_point_values decimalBuiltins threePointsState
          ⟨by decide, by decide, by decide, by decide⟩
      exact ⟨body, hsent, by rw [← hall.length_eq]; decide⟩⟩

/-! ## Markers of the safety points -/

theorem setSelectionMode_form (E : Builtins) (mode : Option Mode) (safetyPointId : Option Nat)
    (s : State) :
    (setSelectionMode E mode safetyPointId s).safetyMarkers = s.safetyMarkers ∧
      (setSelectionMode E mode safetyPointId s).safetyPoints = s.safetyPoints := by
  unfold setSelectionMode
  rcases mode with _ | mode
  · exact ⟨rfl, rfl⟩
  · cases mode <;> cases safetyPointId <;> try exact ⟨rfl, rfl⟩
    rename_i id
    simp only
    cases s.safetyPoints.find? (fun (el : SafetyPointEl) => el.id == id) <;> exact ⟨rfl, rfl⟩

theorem ids_setSafetyLatLon (id : Nat) (lat lng : String) (rows : List SafetyPointEl) :
    (setSafetyLatLon id lat lng rows).map (fun el => el.id) = rows.map (fun el => el.id) := by
  induction rows with
  | nil => rfl
  | cons el rest ih =>
    by_cases h : el.id = id
    · simp [setSafetyLatLon, h]
    · simp [setSafetyLatLon, h, ih]

theorem ids_replaceCircle (id : Nat) (radius : JSNum) (l : List SafetyMarker) :
    (replaceCircle id radius l).map (fun m => m.id) = l.map (fun m => m.id) := by
  induction l with
  | nil => rfl
  | cons m rest ih =>
    by_cases h : m.id = id
    · simp [replaceCircle, h]
    · simp [replaceCircle, h, ih]

theorem ids_set (rows : List SafetyPointEl) (row : Nat) (el el1 : SafetyPointEl)
    (h : rows[row]? = some el) (hid : el1.id = el.id) :
    (rows.set row el1).map (fun x => x.id) = rows.map (fun x => x.id) := by
  induction rows generalizing row with
  | nil => rfl
  | cons x rest ih =>
    cases row with
    | zero =>
      simp only [List.getElem?_cons_zero, Option.some.injEq] at h
      simp [List.set, hid, h]
    | succ n =>
      simp only [List.getElem?_cons_succ] at h
      simp [List.set, ih n h]

theorem eraseP_id_ne (l : List SafetyMarker) (id : Nat)
    (hn : (l.map (fun m => m.id)).Nodup) :
    ∀ m ∈ l.eraseP (fun m => m.id == id), m.id ≠ id := by
  intro m hm hid
  by_cases h : ∃ x ∈ l, x.id = id
  · obtain ⟨x, hx, hxid⟩ := h
    obtain ⟨a, l₁, l₂, _, ha, hl, he⟩ :=
      List.exists_of_eraseP (p := fun m : SafetyMarker => m.id == id) hx (by simpa using hxid)
    have ha' : a.id = id := by simpa using ha
    rw [hl, List.map_append, List.map_cons, List.nodup_middle, List.nodup_cons] at hn
    apply hn.1
    rw [← List.map_append, ha', ← hid, ← he]
    exact List.mem_map_of_mem _ hm
  · exact h ⟨m, List.mem_of_mem_eraseP hm, hid⟩

theorem MarkersMatchForm_update (s s1 : State) (id : Nat) (entry : SafetyMarker)
    (h : MarkersMatchForm s) (hid : entry.id = id)
    (hrow : id ∈ s.safetyPoints.map (fun el => el.id))
    (hrows : s1.safetyPoints.map (fun el => el.id) = s.safetyPoints.map (fun el => el.id))
    (hmarkers : s1.safetyMarkers = s.safetyMarkers.eraseP (fun m => m.id == id) ++ [entry]) :
    MarkersMatchForm s1 := by
  obtain ⟨hn, hsub⟩ := h
  unfold MarkersMatchForm
  rw [hmarkers, hrows]
  constructor
  · rw [List.map_append, List.nodup_append]
    refine ⟨hn.sublist ((List.eraseP_sublist _).map _), by simp, ?_⟩
    intro a ha hb
    simp only [List.map_cons, List.map_nil, List.mem_singleton] at hb
    obtain ⟨m, hm, rfl⟩ := List.mem_map.mp ha
    exact eraseP_id_ne _ id hn m hm (by rw [hb, hid])
  · intro m hm
    rcases List.mem_append.mp hm with hm | hm
    · exact hsub m (List.mem_of_mem_eraseP hm)
    · simp only [List.mem_singleton] at hm
      rw [hm, hid]; exact hrow

theorem MarkersMatchForm_same (s s1 : State) (h : MarkersMatchForm s)
    (hrows : s1.safetyPoints.map (fun el => el.id) = s.safetyPoints.map (fun el => el.id))
    (hmarkers : s1.safetyMarkers.map (fun m => m.id) = s.safetyMarkers.map (fun m => m.id)) :
    MarkersMatchForm s1 := by
  obtain ⟨hn, hsub⟩ := h
  refine ⟨hmarkers ▸ hn, ?_⟩
  intro m hm
  rw [hrows]
  have : m.id ∈ s.safetyMarkers.map (fun m => m.id) := by
    rw [← hmarkers]; exact List.mem_map_of_mem _ hm
  obtain ⟨x, hx, hxid⟩ := List.mem_map.mp this
  rw [← hxid]; exact hsub x hx

theorem MarkersMatchForm_mapClick (E : Builtins) (latlng : LatLng) (s : State)
    (h : MarkersMatchForm s) : MarkersMatchForm (mapClick E latlng s) := by
  rcases hm : s.selectionMode with _ | mode
  · have he : mapClick E latlng s = s := by simp [mapClick, hm]
    rw [he]; exact h
  · cases mode with
    | start =>
      rw [mapClick_start E latlng s hm]
      refine MarkersMatchForm_same s _ h ?_ ?_ <;>
        cases hs : s.startMarker <;> simp [updateStartMarker, hs]
    | finish =>
      rw [mapClick_finish E latlng s hm]
      refine MarkersMatchForm_same s _ h ?_ ?_ <;>
        cases hs : s.endMarker <;> simp [updateEndMarker, hs]
    | safety =>
      rcases hc : s.currentSafetyPointId with _ | current
      · rw [mapClick_safety_no_current E latlng s hm hc]
        exact MarkersMatchForm_same s _ h rfl rfl
      · by_cases hex : ∃ x ∈ s.safetyPoints, x.id = current.id
        · obtain ⟨x, hx, hxid⟩ := hex
          obtain ⟨el, before, after, hbefore, hel, hrows, _⟩ :=
            List.exists_of_eraseP (p := fun el : SafetyPointEl => el.id == current.id) hx
              (by simpa using hxid)
          have hel1 : el.id = current.id := by simpa using hel
          rw [mapClick_safety_target E latlng s current before after el hm hc hrows hel1
            (fun y hy => by simpa using hbefore y hy)]
          refine MarkersMatchForm_update s _ current.id (placedEntry E current el latlng) h rfl
            ?_ ?_ rfl
          · exact List.mem_map.mpr ⟨x, hx, hxid⟩
          · simp [hrows]
        · rw [mapClick_safety_gone E latlng s current hm hc
            (fun x hx hxid => hex ⟨x, hx, hxid⟩)]
          exact MarkersMatchForm_same s _ h rfl rfl

theorem MarkersMatchForm_removeSafetyPoint (id : Nat) (s : State) (h : MarkersMatchForm s) :
    MarkersMatchForm (removeSafetyPoint id s) := by
  obtain ⟨hn, hsub⟩ := h
  rw [removeSafetyPoint_eq]
  refine ⟨hn.sublist ((List.eraseP_sublist _).map _), ?_⟩
  intro m hm
  have hne : m.id ≠ id := eraseP_id_ne _ id hn m hm
  obtain ⟨x, hx, hxid⟩ := List.mem_map.mp (hsub m (List.mem_of_mem_eraseP hm))
  refine List.mem_map.mpr ⟨x, ?_, hxid⟩
  have hp : ¬ ((fun el : SafetyPointEl => el.id == id) x = true) := by
    simp only [beq_iff_eq]; rw [hxid]; exact hne
  exact (List.mem_eraseP_of_neg (p := fun el : SafetyPointEl => el.id == id) (a := x) hp).mpr hx

theorem MarkersMatchForm_formStep (E : Builtins) (s s1 : State) (e : FormEvent)
    (h : MarkersMatchForm s) (hs : formStep E s e = some s1) : MarkersMatchForm s1 := by
  cases e with
  | clickAddSafetyPoint now =>
    simp only [formStep, Option.some.injEq] at hs
    subst hs
    refine ⟨h.1, fun m hm => ?_⟩
    have := h.2 m hm
    simp only [addSafetyPoint, List.map_append, List.mem_append]
    exact Or.inl this
  | clickSelectOnMap row =>
    simp only [formStep] at hs
    split at hs
    · simp only [Option.some.injEq] at hs
      subst hs
      exact MarkersMatchForm_same s _ h
        (congrArg _ (setSelectionMode_form E _ _ s).2) (congrArg _ (setSelectionMode_form E _ _ s).1)
    · simp at hs
  | clickRemove row =>
    simp only [formStep] at hs
    split at hs
    · simp only [Option.some.injEq] at hs
      subst hs
      exact MarkersMatchForm_removeSafetyPoint _ s h
    · simp at hs
  | changeRadius row value =>
    simp only [formStep] at hs
    split at hs
    · rename_i el hel
      simp only [Option.some.injEq] at hs
      subst hs
      refine MarkersMatchForm_same s _ h ?_ ?_
      · exact ids_set s.safetyPoints row el _ hel rfl
      · exact ids_replaceCircle _ _ _
    · simp at hs
  | editControls row safetyLat safetyIndex safetyWeight =>
    simp only [formStep] at hs
    split at hs
    · rename_i el hel
      simp only [Option.some.injEq] at hs
      subst hs
      exact MarkersMatchForm_same s _ h (ids_set s.safetyPoints row el _ hel rfl) rfl
    · simp at hs
  | clickSetStart =>
    simp only [formStep, Option.some.injEq] at hs
    subst hs
    exact MarkersMatchForm_same s _ h
      (congrArg _ (setSelectionMode_form E _ _ s).2) (congrArg _ (setSelectionMode_form E _ _ s).1)
  | clickSetEnd =>
    simp only [formStep, Option.some.injEq] at hs
    subst hs
    exact MarkersMatchForm_same s _ h
      (congrArg _ (setSelectionMode_form E _ _ s).2) (congrArg _ (setSelectionMode_form E _ _ s).1)
  | clickSelectSafetyPoint =>
    simp only [formStep, Option.some.injEq] at hs
    subst hs
    unfold selectSafetyPointClick
    split
    · exact MarkersMatchForm_same s _ h rfl rfl
    · exact MarkersMatchForm_same s _ h
        (congrArg _ (setSelectionMode_form E _ _ s).2) (congrArg _ (setSelectionMode_form E _ _ s).1)
  | clickMap latlng =>
    simp only [formStep, Option.some.injEq] at hs
    subst hs
    exact MarkersMatchForm_mapClick E latlng s h
  | clickNewCalculation now =>
    simp only [formStep, Option.some.injEq] at hs
    subst hs
    rw [resetCalculation_eq]
    exact ⟨List.nodup_nil, fun m hm => by simp at hm⟩

theorem MarkersMatchForm_formRun (E : Builtins) (events : List FormEvent) :
    ∀ s s1 : State, MarkersMatchForm s → formRun E s events = some s1 →
      MarkersMatchForm s1 := by
  induction events with
  | nil =>
    intro s s1 h hr
    simp only [formRun, Option.some.injEq] at hr
    exact hr ▸ h
  | cons e es ih =>
    intro s s1 h hr
    simp only [formRun] at hr
    cases hs : formStep E s e with
    | none => simp [hs] at hr
    | some s2 =>
      rw [hs] at hr
      exact ih s2 s1 (MarkersMatchForm_formStep E s s2 e h hs) hr

theorem MarkersMatchForm_initialState (page : State) (now : Nat) :
    MarkersMatchForm (initialState page now) :=
  ⟨List.nodup_nil, fun m hm => by simp [initialState, addSafetyPoint] at hm⟩

/-- C17: in every state reached by a sequence of form events (adding a block, a block's
"select on map" button, a map click, a change of a radius control, a block's remove button,
"new calculation", and also the other selection buttons and edits of the other controls)
from a state in which the entries of `safetyMarkers` have pairwise distinct ids that all
belong to blocks of the form, as is the loaded page, the entries of `safetyMarkers` still
have pairwise distinct ids and each of these ids is the id of a block of the form. -/
theorem safetyMarkers_match_form (E : Builtins) (s0 s : State) (events : List FormEvent)
    (h0 : MarkersMatchForm s0) (h : formRun E s0 events = some s) :
    (s.safetyMarkers.map (fun m => m.id)).Nodup ∧
      ∀ m ∈ s.safetyMarkers, ∃ el ∈ s.safetyPoints, el.id = m.id := by
  obtain ⟨hn, hsub⟩ := MarkersMatchForm_formRun E events s0 s h0 h
  refine ⟨hn, fun m hm => ?_⟩
  obtain ⟨el, hel, hid⟩ := List.mem_map.mp (hsub m hm)
  exact ⟨el, hel, hid⟩

/-- Witness of C17: from the loaded page, a second block is added, both blocks are placed
on the map, the first one twice, its radius is changed, and it is removed. -/
theorem safetyMarkers_match_form_witness :
    MarkersMatchForm (initialState blankPage 1000) ∧
      (formRun decimalBuiltins (initialState blankPage 1000)
        [FormEvent.clickAddSafetyPoint 1001,
         FormEvent.clickSelectOnMap 0, FormEvent.clickMap (LatLng.mk 19 (-99)),
         FormEvent.clickSelectOnMap 1, FormEvent.clickMap (LatLng.mk 20 (-98)),
         FormEvent.clickSelectOnMap 0, FormEvent.clickMap (LatLng.mk 21 (-97)),
         FormEvent.changeRadius 0 "500",
         FormEvent.clickRemove 0]).map
          (fun s => (s.safetyPoints.map (fun el => el.id),
            s.safetyMarkers.map (fun m => m.id))) = some ([1001], [1001]) ∧
      ∀ s, formRun decimalBuiltins (initialState blankPage 1000)
        [FormEvent.clickAddSafetyPoint 1001,
         FormEvent.clickSelectOnMap 0, FormEvent.clickMap (LatLng.mk 19 (-99)),
         FormEvent.clickSelectOnMap 1, FormEvent.clickMap (LatLng.mk 20 (-98)),
         FormEvent.clickSelectOnMap 0, FormEvent.clickMap (LatLng.mk 21 (-97)),
         FormEvent.changeRadius 0 "500",
         FormEvent.clickRemove 0] = some s →
        (s.safetyMarkers.map (fun m => m.id)).Nodup ∧
          ∀ m ∈ s.safetyMarkers, ∃ el ∈ s.safetyPoints, el.id = m.id :=
  ⟨MarkersMatchForm_initialState blankPage 1000, by decide,
    fun s hs => safetyMarkers_match_form decimalBuiltins (initialState blankPage 1000) s _
      (MarkersMatchForm_initialState blankPage 1000) hs⟩

end RouteApp
